import Mathlib

/-!
# Verification of the `slurm_factory` option model

A shallow embedding of `slurm_factory/job.py`: the `SLURMJob` option
registry, its validating setters, the `dump()` renderer, the `submit`
wrapper and the `chain_jobs` helper, together with theorems checking the
natural-language specification against this embedding.

Conventions of the embedding:
* Python `timedelta` objects are modelled at second granularity by their
  total number of seconds (an `Int`); the derived `days`/`seconds`
  fields follow the floor-based normalisation of Python.
* A setter is a function `... → State → Except (String × State) State`;
  a raised exception is `.error (message, st)` where `st` is the state
  of the object at the moment the exception escapes (Python mutates the
  object in place, so partial updates made before the raise survive).
* Error "classes" are modelled by the raised message text; the source
  raises `RuntimeError` everywhere.
* Dynamic type checks that cannot fail in a typed model (e.g.
  `isinstance(nl, Iterable)` on a list of strings) become checks that
  are constantly `true`.
-/

namespace SlurmFactory

/-- Decidable equality for `Except` results, used to evaluate setter
outcomes on concrete inputs. -/
instance {ε α : Type} [DecidableEq ε] [DecidableEq α] : DecidableEq (Except ε α)
  | .error a, .error b =>
    if h : a = b then .isTrue (by rw [h]) else .isFalse (by intro he; injection he; exact h (by assumption))
  | .error _, .ok _ => .isFalse (by intro he; exact Except.noConfusion he)
  | .ok _, .error _ => .isFalse (by intro he; exact Except.noConfusion he)
  | .ok a, .ok b =>
    if h : a = b then .isTrue (by rw [h]) else .isFalse (by intro he; injection he; exact h (by assumption))

/-- Python `timedelta`, at second granularity: the total number of
seconds (may be negative). -/
structure Timedelta where
  total : Int
  deriving DecidableEq, Repr

/-- Python `td.days`: floor division of the total by 86400. -/
def Timedelta.days (td : Timedelta) : Int := td.total.fdiv 86400

/-- Python `td.seconds`: the non-negative sub-day remainder, in `[0, 86400)`. -/
def Timedelta.seconds (td : Timedelta) : Nat := (td.total % 86400).toNat

/-- Python `"%02i" % n` for a non-negative value: zero-pad to width 2. -/
def pad2 (n : Nat) : String := if n < 10 then "0" ++ toString n else toString n

/-- Embeds `format_timedelta` (job.py:94-103): print a `timedelta` in SLURM format. -/
def format_timedelta (td : Timedelta) : String :=
  if td.total < 3600 then
    pad2 (td.seconds / 60) ++ ":" ++ pad2 (td.seconds % 60)
  else
    let hours := td.seconds / 3600
    let seconds := td.seconds % 3600
    if td.days = 0 then
      pad2 hours ++ ":" ++ pad2 (seconds / 60) ++ ":" ++ pad2 (seconds % 60)
    else
      toString td.days ++ "-" ++ pad2 hours ++ ":" ++ pad2 (seconds / 60) ++ ":" ++ pad2 (seconds % 60)

/-- Embeds `render_option` (job.py:87-91): one `#SBATCH` line.  The call sites
pass either no value (`none`) or a string; the truthiness test of Python
`if value:` makes the empty string fall back to the flag-only form. -/
def render_option (name : String) (value : Option String) : String :=
  match value with
  | some v => if v ≠ "" then "#SBATCH --" ++ name ++ "=" ++ v ++ "\n" else "#SBATCH --" ++ name ++ "\n"
  | none => "#SBATCH --" ++ name ++ "\n"

/-- Conversion characters of `filename_pattern_regexp` (job.py:48):
the character class `[%AaJjNnstux]`. -/
def isConvChar (c : Char) : Bool :=
  c = '%' || c = 'A' || c = 'a' || c = 'J' || c = 'j' || c = 'N' ||
  c = 'n' || c = 's' || c = 't' || c = 'u' || c = 'x'

/-- Length bound used for termination of the pattern scanners. -/
theorem length_dropWhile_le (p : Char → Bool) (l : List Char) :
    (l.dropWhile p).length ≤ l.length := by
  induction l with
  | nil => simp [List.dropWhile]
  | cons c rest ih =>
    simp only [List.dropWhile]
    split
    · simp only [List.length_cons]; omega
    · simp

/-- Embeds `re.sub(filename_pattern_regexp, "", ...)` on the character list:
remove the leftmost non-overlapping matches of `%\d*[%AaJjNnstux]`
(the digit run is greedy; no conversion character is a digit, so the
greedy parse is the only possible one). -/
def subScan (cs : List Char) : List Char :=
  match cs with
  | [] => []
  | c :: rest =>
    if c = '%' then
      match h : rest.dropWhile Char.isDigit with
      | d :: tail =>
        if isConvChar d then subScan tail else c :: subScan rest
      | [] => c :: subScan rest
    else c :: subScan rest
termination_by cs.length
decreasing_by
  all_goals first
    | (have h1 : (rest.dropWhile Char.isDigit).length ≤ rest.length := length_dropWhile_le _ _
       rw [h] at h1
       simp only [List.length_cons] at h1 ⊢
       omega)
    | (simp only [List.length_cons]; omega)

/-- Whether the two-character sequence of two consecutive backslashes
occurs (the raw-string containment test of job.py:62). -/
def hasDoubleBackslash : List Char → Bool
  | '\\' :: '\\' :: _ => true
  | _ :: rest => hasDoubleBackslash rest
  | [] => false

/-- Embeds `valid_filename_patterns` (job.py:61-63). -/
def valid_filename_patterns (filename : String) : Bool :=
  hasDoubleBackslash filename.data || !((subScan filename.data).contains '%')

/-- Modelled from the spec (the grammar of claim C6): the string tiles into
non-`%` characters and placeholders of the form `%` + digits + one
conversion character, so that every `%` lies inside a placeholder. -/
def specTiles (cs : List Char) : Bool :=
  match cs with
  | [] => true
  | c :: rest =>
    if c = '%' then
      match h : rest.dropWhile Char.isDigit with
      | d :: tail => isConvChar d && specTiles tail
      | [] => false
    else specTiles rest
termination_by cs.length
decreasing_by
  all_goals first
    | (have h1 : (rest.dropWhile Char.isDigit).length ≤ rest.length := length_dropWhile_le _ _
       rw [h] at h1
       simp only [List.length_cons] at h1 ⊢
       omega)
    | (simp only [List.length_cons]; omega)

/-- Embeds `memory_size_regexp` (job.py:56): full match of `[0-9]+[KMGT]`. -/
def memory_size_match (s : String) : Bool :=
  match s.data.getLast? with
  | some c =>
    (c = 'K' || c = 'M' || c = 'G' || c = 'T') &&
    decide (s.data.dropLast ≠ []) && s.data.dropLast.all Char.isDigit
  | none => false

/-- A Python value passed as a memory size: an `int` or a `str`. -/
inductive MemSize
  | int (n : Int)
  | str (s : String)
  deriving DecidableEq, Repr

/-- Embeds `valid_memory_size` (job.py:66-68). -/
def valid_memory_size : MemSize → Bool
  | .int n => 0 < n
  | .str s => memory_size_match s

/-- Python `str()` of a memory-size value. -/
def MemSize.toStr : MemSize → String
  | .int n => toString n
  | .str s => s

/-- Python truthiness of a memory-size value. -/
def MemSize.truthy : MemSize → Bool
  | .int n => n ≠ 0
  | .str s => s ≠ ""

/-- Embeds `valid_reservation` (job.py:71-72): full match of `[_\-a-z0-9]*`. -/
def valid_reservation (s : String) : Bool :=
  s.data.all (fun c => c = '_' || c = '-' || ('a' ≤ c && c ≤ 'z') || c.isDigit)

/-- Python `\w` (word character, ASCII reading). -/
def isWordChar (c : Char) : Bool := c.isAlphanum || c = '_'

/-- One constraint item: `\w+(\*\d)*` — a nonempty word-character run
followed by `*`-digit pairs.  `matchItemTail` consumes the `(\*\d)*` part. -/
def matchItemTail : List Char → Bool
  | [] => true
  | '*' :: d :: rest => d.isDigit && matchItemTail rest
  | _ => false

/-- Full match of `\w+(\*\d)*`. -/
def matchItem (cs : List Char) : Bool :=
  decide (cs.takeWhile isWordChar ≠ []) && matchItemTail (cs.dropWhile isWordChar)

/-- Split a character list at a separator character. -/
def splitOnChar (sep : Char) (cs : List Char) : List (List Char) :=
  match cs with
  | [] => [[]]
  | c :: rest =>
    if c = sep then [] :: splitOnChar sep rest
    else
      match splitOnChar sep rest with
      | [] => [[c]]
      | p :: ps => (c :: p) :: ps

/-- Full match of `^\w+(\*\d)*(<sep>\w+(\*\d)*)*$`: every separator-delimited
part is a constraint item (a part never contains the separator, so the
split-based reading agrees with the regular expression). -/
def matchSepList (sep : Char) (cs : List Char) : Bool :=
  (splitOnChar sep cs).all matchItem

/-- Embeds `constraints_regexps` (job.py:50-54): the four accepted grammars
(comma list, OR list, AND list, bracketed matching-OR). -/
def valid_constraints (s : String) : Bool :=
  matchSepList ',' s.data || matchSepList '|' s.data || matchSepList '&' s.data ||
  (match s.data with
   | '[' :: rest =>
     match rest.getLast? with
     | some ']' => matchSepList '|' rest.dropLast && decide (rest.dropLast ≠ [])
     | _ => false
   | _ => false)

/-- A generic-consumable-resource entry as stored: the tuple forms
`(name,)`, `(name, count)`, `(name, count, type)`. -/
inductive Gres
  | one (a : String)
  | two (a : String) (n : Int)
  | three (a : String) (n : Int) (t : String)
  deriving DecidableEq, Repr

/-- A gres item as passed by the caller: a bare string or a tuple. -/
inductive GresArg
  | str (a : String)
  | tup1 (a : String)
  | tup2 (a : String) (n : Int)
  | tup3 (a : String) (n : Int) (t : String)
  deriving DecidableEq, Repr

/-- Embeds `valid_gres` (job.py:75-78): in the typed model every representable
item already has the right shape, so the check is constantly true. -/
def valid_gres : GresArg → Bool := fun _ => true

/-- The `apply_before_store` normalisation for gres: a bare string `g`
becomes the 1-tuple `(g,)` (job.py:219). -/
def normGresArg : GresArg → Gres
  | .str a => .one a
  | .tup1 a => .one a
  | .tup2 a n => .two a n
  | .tup3 a n t => .three a n t

/-- Embeds `render_gres` (job.py:339-343). -/
def render_gres : Gres → String
  | .one a => a
  | .two a n => a ++ ":" ++ toString n
  | .three a n t => a ++ ":" ++ t ++ ":" ++ toString n

/-- A license entry as stored: `(name,)` or `(name, count)`. -/
inductive License
  | one (a : String)
  | two (a : String) (n : Int)
  deriving DecidableEq, Repr

/-- A license item as passed by the caller (a bare string or a pair;
`valid_license`, job.py:81-84, always holds for these shapes). -/
inductive LicenseArg
  | str (a : String)
  | tup (a : String) (n : Int)
  deriving DecidableEq, Repr

/-- The `apply_before_store` normalisation for licenses (job.py:293). -/
def normLicenseArg : LicenseArg → License
  | .str a => .one a
  | .tup a n => .two a n

/-- Embeds `render_license` (job.py:380). -/
def render_license : License → String
  | .one a => a
  | .two a n => a ++ ":" ++ toString n

/-- A switches specification as stored: `(count,)` or `(count, max-wait)`. -/
inductive Switches
  | one (n : Int)
  | two (n : Int) (w : Timedelta)
  deriving DecidableEq, Repr

/-- The switches argument of the caller: a bare int or a pair. -/
inductive SwitchesArg
  | int (n : Int)
  | pair (n : Int) (w : Timedelta)
  deriving DecidableEq, Repr

/-- Embeds `valid_switches` (job.py:228): a bare int, or a pair with positive
count and non-negative wait duration. -/
def valid_switches : SwitchesArg → Bool
  | .int _ => true
  | .pair n w => 0 < n && 0 ≤ w.total

/-- The switches normalisation (job.py:230): a bare int `sw` becomes `(sw,)`. -/
def normSwitchesArg : SwitchesArg → Switches
  | .int n => .one n
  | .pair n w => .two n w

/-- A signal number/name argument. -/
inductive SigNum
  | name (s : String)
  | num (n : Int)
  deriving DecidableEq, Repr

/-- Python `str()` of a signal number/name. -/
def SigNum.toStr : SigNum → String
  | .name s => s
  | .num n => toString n

/-- The stored `self.signal` triple `(sig_num, sig_time, shell_only)`. -/
structure SignalSpec where
  sig : SigNum
  sig_time : Option Int
  shell_only : Bool
  deriving DecidableEq, Repr

/-- Python `datetime.date` (ISO format `YYYY-MM-DD`). -/
structure PyDate where
  year : Nat
  month : Nat
  day : Nat
  deriving DecidableEq, Repr

/-- Embeds `date.isoformat()`. -/
def PyDate.isoformat (d : PyDate) : String :=
  (if d.year < 1000 then (if d.year < 100 then (if d.year < 10 then "000" else "00") else "0") else "")
  ++ toString d.year ++ "-" ++ pad2 d.month ++ "-" ++ pad2 d.day

/-- Python `datetime.time` (microseconds omitted; ISO format `HH:MM:SS`). -/
structure PyTime where
  hour : Nat
  minute : Nat
  second : Nat
  deriving DecidableEq, Repr

/-- Embeds `time.isoformat()` for a whole-second time. -/
def PyTime.isoformat (t : PyTime) : String :=
  pad2 t.hour ++ ":" ++ pad2 t.minute ++ ":" ++ pad2 t.second

/-- Python `datetime.datetime` (ISO format `date T time`). -/
structure PyDateTime where
  date : PyDate
  time : PyTime
  deriving DecidableEq, Repr

/-- Embeds `datetime.isoformat()`. -/
def PyDateTime.isoformat (dt : PyDateTime) : String :=
  dt.date.isoformat ++ "T" ++ dt.time.isoformat

/-- A calendar value: one of the `date`/`time`/`datetime` classes. -/
inductive DateTimeVal
  | date (x : PyDate)
  | time (x : PyTime)
  | datetime (x : PyDateTime)
  deriving DecidableEq, Repr

/-- Embeds `isoformat()` of a calendar value. -/
def DateTimeVal.isoformat : DateTimeVal → String
  | .date x => x.isoformat
  | .time x => x.isoformat
  | .datetime x => x.isoformat

/-- The `begin` argument of `defer_allocation`: a special token string,
a calendar value, or a relative duration. -/
inductive BeginVal
  | str (s : String)
  | dtv (x : DateTimeVal)
  | td (x : Timedelta)
  deriving DecidableEq, Repr

/-- Python truthiness of a stored `begin` value (`timedelta(0)` and the
empty string are falsy; `date`/`time`/`datetime` are always truthy). -/
def BeginVal.truthy : BeginVal → Bool
  | .str s => s ≠ ""
  | .dtv _ => true
  | .td x => x.total ≠ 0

/-- The rendering of `begin` (job.py:367-374): type-dispatched. -/
def renderBegin : BeginVal → String
  | .str s => s
  | .dtv x => x.isoformat
  | .td x => "now+" ++ (if 0 < x.days then toString x.days ++ "days" else toString x.seconds)

/-- An `export_vars` argument: the special strings `ALL`/`NONE` (or any
string — iterating a Python string yields strings), or a list. -/
inductive ExportVars
  | str (s : String)
  | list (l : List String)
  deriving DecidableEq, Repr

/-- Python truthiness of an `export_vars` value. -/
def ExportVars.truthy : ExportVars → Bool
  | .str s => s ≠ ""
  | .list l => l ≠ []

/-- Embeds `export += self.export_vars` extends a list with an iterable: a
string contributes its characters, a list its elements. -/
def ExportVars.items : ExportVars → List String
  | .str s => s.data.map toString
  | .list l => l

/-- An `export_file` argument: a filename or a file descriptor. -/
inductive ExportFile
  | int (n : Int)
  | str (s : String)
  deriving DecidableEq, Repr

/-- Python truthiness of an `export_file` value (`0` and `""` are falsy). -/
def ExportFile.truthy : ExportFile → Bool
  | .int n => n ≠ 0
  | .str s => s ≠ ""

/-- Python `str()` of an `export_file` value. -/
def ExportFile.toStr : ExportFile → String
  | .int n => toString n
  | .str s => s

/-- An argument that may be a bare string or a list of strings
(`set_partitions`, `set_clusters`). -/
inductive StrOrList
  | str (s : String)
  | list (l : List String)
  deriving DecidableEq, Repr

/-- The full option state of a `SLURMJob` object: one field per
attribute assigned by the constructor/setters (job.py:105-311). -/
structure State where
  submitted : Bool
  name : String
  partitions : Option (List String)
  time : Option Timedelta
  time_min : Option Timedelta
  minnodes : Option Int
  maxnodes : Option Int
  use_min_nodes : Bool
  core_spec : Option Int
  thread_spec : Option Int
  mincpus : Option Int
  sockets_per_node : Option Int
  cores_per_socket : Option Int
  threads_per_core : Option Int
  mem : Option MemSize
  mem_per_cpu : Option MemSize
  tmp : Option MemSize
  constraints : Option String
  gres : Option (List Gres)
  gres_enforce_binding : Bool
  contiguous : Bool
  nodelist : Option (List String)
  nodefile : Option String
  exclude : Option (List String)
  switches : Option Switches
  workdir : Option String
  output : Option String
  error : Option String
  input : Option String
  open_mode : Option String
  mail_user : Option String
  mail_type : Option String
  signal : Option SignalSpec
  reservation : Option String
  immediate : Bool
  begin : Option BeginVal
  deadline : Option DateTimeVal
  qos : Option String
  account : Option String
  licenses : Option (List License)
  clusters : Option (List String)
  export_vars : Option ExportVars
  set_vars : Option (List (String × String))
  export_file : Option ExportFile
  body : String
  job_id : Option Int
  deriving DecidableEq, Repr

/-- Embeds `SLURMJob.__check_and_store` (job.py:161-169): a `None` value is
stored as-is; otherwise the checks run in order and the first failing
check raises `RuntimeError("<setter>: <message>")` (the setter name
comes from stack inspection); on success `apply_before_store` is applied
and the result stored.  The returned value is what gets stored. -/
def checkStore {α β : Type} (setter : String) (value : Option α)
    (checks : List ((α → Bool) × String)) (applyBefore : α → β) :
    Except String (Option β) :=
  match value with
  | none => .ok none
  | some x =>
    match checks.find? (fun ck => !ck.1 x) with
    | some ck => .error (setter ++ ": " ++ ck.2)
    | none => .ok (some (applyBefore x))

/-- Embeds the body replacement of CRLF by LF: replace each
non-overlapping leftmost CRLF pair by a newline. -/
def replaceCRLF : List Char → List Char
  | '\r' :: '\n' :: rest => '\n' :: replaceCRLF rest
  | c :: rest => c :: replaceCRLF rest
  | [] => []

/-- Embeds `set_body` (job.py:171-172): store the body with CRLF normalised. -/
def set_body (body : String) (s : State) : State :=
  {s with body := String.mk (replaceCRLF body.data)}

/-- Embeds `set_partitions` (job.py:174-175). -/
def set_partitions (partition_names : Option StrOrList) (s : State) : State :=
  {s with partitions :=
    match partition_names with
    | none => none
    | some (.str x) => some [x]
    | some (.list l) => some l}

/-- Embeds `set_time` (job.py:177-183).  `time` is checked and stored first;
the `time_min` checks run against the freshly stored `time`. -/
def set_time (time : Option Timedelta) (time_min : Option Timedelta) (s : State) :
    Except (String × State) State :=
  match checkStore "set_time" time
      [(fun t => 0 ≤ t.total, "negative \x27time\x27 durations are not allowed")] id with
  | .error m => .error (m, s)
  | .ok tv =>
    let s := {s with time := tv}
    match checkStore "set_time" time_min
        [(fun t => 0 ≤ t.total, "negative \x27time_min\x27 durations are not allowed"),
         (fun _ => s.time.isSome, "cannot set \x27time_min\x27 without setting \x27time\x27"),
         (fun t => match s.time with
                   | some t0 => t.total ≤ t0.total
                   | none => false, "\x27time_min\x27 cannot exceed \x27time\x27")] id with
    | .error m => .error (m, s)
    | .ok tmv => .ok {s with time_min := tmv}

/-- Embeds `set_nnodes` (job.py:185-191).  `minnodes` is stored first; the
`maxnodes` checks consult the freshly stored `minnodes`;
`use_min_nodes` is assigned last (so it keeps its old value on error). -/
def set_nnodes (minnodes maxnodes : Option Int) (use_min_nodes : Bool) (s : State) :
    Except (String × State) State :=
  match checkStore "set_nnodes" minnodes
      [(fun n => 0 < n, "\x27minnodes\x27 must be positive")] id with
  | .error m => .error (m, s)
  | .ok mn =>
    let s := {s with minnodes := mn}
    match checkStore "set_nnodes" maxnodes
        [(fun _ => s.minnodes.isSome, "cannot set \x27maxnodes\x27 without setting \x27minnodes\x27"),
         (fun n => 0 < n, "\x27maxnodes\x27 must be positive"),
         (fun n => match s.minnodes with
                   | some m0 => m0 ≤ n
                   | none => false, "\x27minnodes\x27 cannot exceed \x27maxnodes\x27")] id with
    | .error m => .error (m, s)
    | .ok mx => .ok {s with maxnodes := mx, use_min_nodes := use_min_nodes}

/-- Embeds `set_specialized` (job.py:193-198): both options are stored before
the mutual-exclusion test, so on that failure both survive. -/
def set_specialized (cores threads : Option Int) (s : State) :
    Except (String × State) State :=
  match checkStore "set_specialized" cores
      [(fun n => 0 < n, "\x27cores\x27 must be positive")] id with
  | .error m => .error (m, s)
  | .ok cv =>
    let s := {s with core_spec := cv}
    match checkStore "set_specialized" threads
        [(fun n => 0 < n, "\x27threads\x27 must be positive")] id with
    | .error m => .error (m, s)
    | .ok tv =>
      let s := {s with thread_spec := tv}
      if s.core_spec.isSome && s.thread_spec.isSome then
        .error ("set_specialized: \x27cores\x27 and \x27threads\x27 options are mutually exclusive", s)
      else .ok s

/-- Embeds `set_constraints` (job.py:200-230).  The options are checked and
stored one after another in source order; the `mem`/`mem_per_cpu`
exclusion test runs only after `mem`, `mem_per_cpu` and `tmp` have all
been stored.  Dynamic `isinstance` checks on `gres`, `nodelist` and
`exclude` cannot fail on the typed representations. -/
def set_constraints (mincpus : Option Int)
    (sockets_per_node cores_per_socket threads_per_core : Option Int)
    (mem mem_per_cpu tmp : Option MemSize)
    (constraints : Option String)
    (gres : Option (List GresArg)) (gres_enforce_binding : Bool)
    (contiguous : Bool)
    (nodelist : Option (List String)) (nodefile : Option String)
    (exclude : Option (List String))
    (switches : Option SwitchesArg) (s : State) :
    Except (String × State) State :=
  match checkStore "set_constraints" mincpus
      [(fun n => 0 < n, "\x27mincpus\x27 must be positive")] id with
  | .error m => .error (m, s)
  | .ok v1 =>
  let s := {s with mincpus := v1}
  match checkStore "set_constraints" sockets_per_node
      [(fun n => 0 < n, "\x27sockets_per_node\x27 must be positive")] id with
  | .error m => .error (m, s)
  | .ok v2 =>
  let s := {s with sockets_per_node := v2}
  match checkStore "set_constraints" cores_per_socket
      [(fun n => 0 < n, "\x27cores_per_socket\x27 must be positive")] id with
  | .error m => .error (m, s)
  | .ok v3 =>
  let s := {s with cores_per_socket := v3}
  match checkStore "set_constraints" threads_per_core
      [(fun n => 0 < n, "\x27threads_per_core\x27 must be positive")] id with
  | .error m => .error (m, s)
  | .ok v4 =>
  let s := {s with threads_per_core := v4}
  match checkStore "set_constraints" mem
      [(valid_memory_size, "invalid size argument to \x27mem\x27 option")] id with
  | .error m => .error (m, s)
  | .ok v5 =>
  let s := {s with mem := v5}
  match checkStore "set_constraints" mem_per_cpu
      [(valid_memory_size, "invalid size argument to \x27mem_per_cpu\x27 option")] id with
  | .error m => .error (m, s)
  | .ok v6 =>
  let s := {s with mem_per_cpu := v6}
  match checkStore "set_constraints" tmp
      [(valid_memory_size, "invalid size argument to \x27tmp\x27 option")] id with
  | .error m => .error (m, s)
  | .ok v7 =>
  let s := {s with tmp := v7}
  if s.mem.isSome && s.mem_per_cpu.isSome then
    .error ("set_constraints: \x27mem\x27 and \x27mem_per_cpu\x27 options are mutually exclusive", s)
  else
  match checkStore "set_constraints" constraints
      [(valid_constraints,
        "invalid constraints " ++ (match constraints with | some c => c | none => "None"))] id with
  | .error m => .error (m, s)
  | .ok v8 =>
  let s := {s with constraints := v8}
  match checkStore "set_constraints" gres
      [(fun gg => gg.all valid_gres, "invalid generic consumable resources")]
      (List.map normGresArg) with
  | .error m => .error (m, s)
  | .ok v9 =>
  let s := {s with gres := v9, gres_enforce_binding := gres_enforce_binding,
                   contiguous := contiguous}
  match checkStore "set_constraints" nodelist
      [(fun _ => true, "\x27nodelist\x27 must be iterable")] id with
  | .error m => .error (m, s)
  | .ok v10 =>
  let s := {s with nodelist := v10}
  match checkStore "set_constraints" exclude
      [(fun _ => true, "\x27exclude\x27 must be iterable")] id with
  | .error m => .error (m, s)
  | .ok v11 =>
  let s := {s with exclude := v11, nodefile := nodefile}
  match checkStore "set_constraints" switches
      [(valid_switches, "\x27switches\x27 invalid \x27switches\x27 specification")]
      normSwitchesArg with
  | .error m => .error (m, s)
  | .ok v12 => .ok {s with switches := v12}

/-- Embeds `set_workdir` (job.py:232-233). -/
def set_workdir (workdir : Option String) (s : State) : State :=
  {s with workdir := workdir}

/-- Embeds `set_job_streams` (job.py:235-242): `output`, `error`, `input` are
validated as filename patterns and stored in that order; the open mode
is mapped through the dictionary sending w to truncate and a to
append. -/
def set_job_streams (output error input : Option String) (mode : Option String) (s : State) :
    Except (String × State) State :=
  match checkStore "set_job_streams" output
      [(valid_filename_patterns, "invalid filename pattern in \x27output\x27 argument")] id with
  | .error m => .error (m, s)
  | .ok ov =>
  let s := {s with output := ov}
  match checkStore "set_job_streams" error
      [(valid_filename_patterns, "invalid filename pattern in \x27error\x27 argument")] id with
  | .error m => .error (m, s)
  | .ok ev =>
  let s := {s with error := ev}
  match checkStore "set_job_streams" input
      [(valid_filename_patterns, "invalid filename pattern in \x27input\x27 argument")] id with
  | .error m => .error (m, s)
  | .ok iv =>
  let s := {s with input := iv}
  match checkStore "set_job_streams" mode
      [(fun mo => mo = "w" || mo = "a",
        "invalid open mode " ++ (match mode with | some mo => mo | none => "None"))]
      (fun mo => if mo = "w" then "truncate" else "append") with
  | .error m => .error (m, s)
  | .ok mv => .ok {s with open_mode := mv}

/-- The default of the `mode` parameter of `set_job_streams` (job.py:235)
is the string w, not `None`: a call that leaves `mode` at its default
passes w, which the valid-modes dictionary maps to truncate. -/
def set_job_streams_default_mode : Option String := some "w"

/-- The valid mail event types (job.py:245-246). -/
def valid_mail_types : List String :=
  ["BEGIN", "END", "FAIL", "REQUEUE", "ALL", "STAGE_OUT",
   "TIME_LIMIT", "TIME_LIMIT_90", "TIME_LIMIT_80", "TIME_LIMIT_50"]

/-- Embeds `set_email` (job.py:244-254). -/
def set_email (mail_user mail_type : Option String) (s : State) :
    Except (String × State) State :=
  match mail_type with
  | none => .ok {s with mail_user := none, mail_type := none}
  | some mt =>
    if mt = "NONE" then .ok {s with mail_user := none, mail_type := none}
    else if !valid_mail_types.contains mt then
      .error ("set_email: invalid event type " ++ mt, s)
    else .ok {s with mail_type := some mt, mail_user := mail_user}

/-- Embeds `set_signal` (job.py:256-265), parameterised by the platform signal
table `all_signals` (name ↦ number). -/
def set_signal (all_signals : List (String × Int)) (sig_num : SigNum)
    (sig_time : Option Int) (shell_only : Bool) (s : State) :
    Except (String × State) State :=
  let known := match sig_num with
    | .name x => all_signals.any (fun kv => kv.1 = x)
    | .num n => all_signals.any (fun kv => kv.2 = n)
  if !known then
    .error ("set_signal: unknown signal number/name " ++ sig_num.toStr, s)
  else
    match sig_time with
    | none => .ok {s with signal := some ⟨sig_num, none, shell_only⟩}
    | some st =>
      if !(0 ≤ st && st ≤ 65535) then
        .error ("set_signal: \x27sig_time\x27 must be an integer between 0 and 65535", s)
      else .ok {s with signal := some ⟨sig_num, some st, shell_only⟩}

/-- Embeds `set_reservation` (job.py:267-268). -/
def set_reservation (reservation : Option String) (s : State) :
    Except (String × State) State :=
  match checkStore "set_reservation" reservation
      [(valid_reservation, "invalid reservation name")] id with
  | .error m => .error (m, s)
  | .ok rv => .ok {s with reservation := rv}

/-- The special `begin` tokens (job.py:275). -/
def begin_tokens : List String :=
  ["midnight", "noon", "fika", "teatime", "today", "tomorrow"]

/-- Embeds `defer_allocation` (job.py:270-278).  `immediate` is assigned
before `begin` is validated, so it survives a failed `begin` check. -/
def defer_allocation (begin : Option BeginVal) (immediate : Bool) (s : State) :
    Except (String × State) State :=
  let s := {s with immediate := immediate}
  match checkStore "defer_allocation" begin
      [(fun b => match b with
                 | .str x => begin_tokens.contains x
                 | _ => true, "\x27begin\x27 has a wrong type"),
       (fun b => match b with
                 | .td x => !(x.days < 0)
                 | _ => true, "negative \x27begin\x27 durations are not allowed")] id with
  | .error m => .error (m, s)
  | .ok bv => .ok {s with begin := bv}

/-- Embeds `set_deadline` (job.py:280-282): the `isinstance` type check cannot
fail on the typed representation. -/
def set_deadline (deadline : Option DateTimeVal) (s : State) :
    Except (String × State) State :=
  match checkStore "set_deadline" deadline
      [(fun _ => true, "\x27deadline\x27 has a wrong type")] id with
  | .error m => .error (m, s)
  | .ok dv => .ok {s with deadline := dv}

/-- Embeds `set_qos` (job.py:284-285). -/
def set_qos (qos : Option String) (s : State) : State := {s with qos := qos}

/-- Embeds `set_account` (job.py:287-288). -/
def set_account (account : Option String) (s : State) : State :=
  {s with account := account}

/-- Embeds `set_licenses` (job.py:290-293): bare strings become 1-tuples. -/
def set_licenses (licenses : Option (List LicenseArg)) (s : State) :
    Except (String × State) State :=
  match checkStore "set_licenses" licenses
      [(fun _ => true, "invalid licenses")] (List.map normLicenseArg) with
  | .error m => .error (m, s)
  | .ok lv => .ok {s with licenses := lv}

/-- Embeds `set_clusters` (job.py:295-297). -/
def set_clusters (clusters : Option StrOrList) (s : State) : State :=
  {s with clusters :=
    match clusters with
    | none => none
    | some (.str x) => some [x]
    | some (.list l) => some l}

/-- Embeds `set_export_env` (job.py:299-311): the three options are stored in
order; none of the checks can fail on the typed representations (the
trailing `os.fstat` probe only emits a warning and never mutates). -/
def set_export_env (export_vars : Option ExportVars)
    (set_vars : Option (List (String × String)))
    (export_file : Option ExportFile) (s : State) :
    Except (String × State) State :=
  match checkStore "set_export_env" export_vars
      [(fun _ => true, "\x27export_vars\x27 must contain strings")] id with
  | .error m => .error (m, s)
  | .ok ev =>
  let s := {s with export_vars := ev}
  match checkStore "set_export_env" set_vars
      [(fun _ => true, "keys of \x27set_vars\x27 must be strings")] id with
  | .error m => .error (m, s)
  | .ok sv =>
  let s := {s with set_vars := sv}
  match checkStore "set_export_env" export_file
      [(fun _ => true, "invalid \x27export_file\x27 value")] id with
  | .error m => .error (m, s)
  | .ok fv => .ok {s with export_file := fv}

/-- Python truthiness of an optional string (`None` and `""` are falsy). -/
def truthyS (v : Option String) : Bool :=
  match v with
  | some x => x ≠ ""
  | none => false

/-- Python truthiness of an optional list (`None` and `[]` are falsy). -/
def truthyL {α : Type} (v : Option (List α)) : Bool :=
  match v with
  | some l => !l.isEmpty
  | none => false

/-- Python truthiness of an optional int (`None` and `0` are falsy). -/
def truthyI (v : Option Int) : Bool :=
  match v with
  | some n => n ≠ 0
  | none => false

/-- Python truthiness of an optional duration (`timedelta(0)` is falsy). -/
def truthyTd (v : Option Timedelta) : Bool :=
  match v with
  | some t => t.total ≠ 0
  | none => false

/-- Python truthiness of an optional memory size. -/
def truthyMem (v : Option MemSize) : Bool :=
  match v with
  | some m => m.truthy
  | none => false

/-- Python truthiness of an optional `export_vars` value. -/
def truthyEV (v : Option ExportVars) : Bool :=
  match v with
  | some ev => ev.truthy
  | none => false

/-- Python truthiness of an optional `export_file` value. -/
def truthyEF (v : Option ExportFile) : Bool :=
  match v with
  | some ef => ef.truthy
  | none => false

/-- Embeds `str(self.mail_user)`: Python renders `None` as the string `"None"`. -/
def pyStrOpt (v : Option String) : String :=
  match v with
  | some x => x
  | none => "None"

/-- The value part of the `--signal` directive (job.py:363-365). -/
def renderSignal (sg : SignalSpec) : String :=
  (if sg.shell_only then "B:" else "") ++ sg.sig.toStr ++
  (match sg.sig_time with
   | some st => "@" ++ toString st
   | none => "")

/-- The value part of the `--switches` directive (job.py:350-353). -/
def renderSwitches : Switches → String
  | .one n => toString n
  | .two n w => toString n ++ "@" ++ format_timedelta w

/-- The value part of the `--nodes` directive (job.py:321-322):
`minnodes`, with `-maxnodes` appended when `maxnodes` is truthy. -/
def renderNodes (mn : Int) (mx : Option Int) : String :=
  toString mn ++ (match mx with
                  | some x => if x != 0 then "-" ++ toString x else ""
                  | none => "")

/-- The items joined for the `--export` value (job.py:387-389). -/
def exportJoinItems (ev : Option ExportVars) (sv : Option (List (String × String))) :
    List String :=
  (match ev with
   | some x => if x.truthy then x.items else []
   | none => []) ++
  (match sv with
   | some l => if decide (l ≠ []) then l.map (fun kv => kv.1 ++ "=" ++ kv.2) else []
   | none => [])

/-- One header segment for an option rendered when present and truthy
(the shape of most `if self.x: t += render_option(...)` lines). -/
def segG {α : Type} (nm : String) (v : Option α) (g : α → Bool) (fm : α → String) : String :=
  match v with
  | some x => if g x then render_option nm (some (fm x)) else ""
  | none => ""

/-- One header segment for an option whose stored value is always
truthy when present (`switches`, `signal`, `deadline`). -/
def segU {α : Type} (nm : String) (v : Option α) (fm : α → String) : String :=
  match v with
  | some x => render_option nm (some (fm x))
  | none => ""

/-- One header segment guarded by a boolean (flags, and the job name). -/
def segFlag (nm : String) (b : Bool) (v : Option String) : String :=
  if b then render_option nm v else ""

/-- The `extra_node_info` block (job.py:327-333): individual lines when
any of the three is `None`, otherwise one merged `extra-node-info`
line built from the three values. -/
def eniSeg (a b c : Option Int) : String :=
  if a.isNone || b.isNone || c.isNone then
    segG "sockets-per-node" a (fun n => n != 0) toString ++
    segG "cores-per-socket" b (fun n => n != 0) toString ++
    segG "threads-per-core" c (fun n => n != 0) toString
  else
    render_option "extra-node-info"
      (some (toString (a.getD 0) ++ ":" ++ toString (b.getD 0) ++ ":" ++ toString (c.getD 0)))

/-- The mail block (job.py:359-361): a truthy `mail_type` emits the
`mail-type` line and a `mail-user` line rendering `str(self.mail_user)`
(so an absent user renders as `"None"`). -/
def mailSeg (mt mu : Option String) : String :=
  match mt with
  | some x =>
    if x != "" then
      render_option "mail-type" (some x) ++ render_option "mail-user" (some (pyStrOpt mu))
    else ""
  | none => ""

/-- Embeds the ALL/NONE membership test on `export_vars` (job.py:384). -/
def exportIsAllNone (ev : Option ExportVars) : Bool :=
  match ev with
  | some (.str x) => x = "ALL" || x = "NONE"
  | _ => false

/-- The string stored in `export_vars` when it is `ALL`/`NONE`. -/
def exportAllNoneVal (ev : Option ExportVars) : String :=
  match ev with
  | some (.str x) => x
  | _ => ""

/-- The export block (job.py:383-390): one `export` line when either
`export_vars` or `set_vars` is truthy. -/
def exportSeg (ev : Option ExportVars) (sv : Option (List (String × String))) : String :=
  if truthyEV ev || truthyL sv then
    (if exportIsAllNone ev then
      render_option "export" (some (exportAllNoneVal ev))
    else
      render_option "export" (some (String.intercalate "," (exportJoinItems ev sv))))
  else ""

/-- Embeds `SLURMJob.dump` (job.py:313-398): shebang line, one segment per
source `if` in source order, the two fixed control directives, then the
body.  The module-level `shell_path` (read from the environment when
the module loads) is a parameter. -/
def dump (shell_path : String) (s : State) : String :=
  "#!" ++ shell_path ++ "\n" ++
  segFlag "job-name" (s.name != "") (some s.name) ++
  segG "partition" s.partitions (fun l => !l.isEmpty) (String.intercalate ",") ++
  segG "time" s.time (fun x => x.total != 0) format_timedelta ++
  segG "time-min" s.time_min (fun x => x.total != 0) format_timedelta ++
  segG "nodes" s.minnodes (fun n => n != 0) (fun n => renderNodes n s.maxnodes) ++
  segFlag "use-min-nodes" s.use_min_nodes none ++
  segG "core-spec" s.core_spec (fun n => n != 0) toString ++
  segG "thread-spec" s.thread_spec (fun n => n != 0) toString ++
  segG "mincpus" s.mincpus (fun n => n != 0) toString ++
  eniSeg s.sockets_per_node s.cores_per_socket s.threads_per_core ++
  segG "mem" s.mem MemSize.truthy MemSize.toStr ++
  segG "mem_per_cpu" s.mem_per_cpu MemSize.truthy MemSize.toStr ++
  segG "tmp" s.tmp MemSize.truthy MemSize.toStr ++
  segG "constraint" s.constraints (fun c => c != "") (fun c => c) ++
  segG "gres" s.gres (fun l => !l.isEmpty)
    (fun l => String.intercalate "," (l.map render_gres)) ++
  segFlag "gres-flags" s.gres_enforce_binding (some "enforce-binding") ++
  segFlag "contiguous" s.contiguous none ++
  segG "nodelist" s.nodelist (fun l => !l.isEmpty) (String.intercalate ",") ++
  segG "nodefile" s.nodefile (fun f => f != "") (fun f => f) ++
  segG "exclude" s.exclude (fun l => !l.isEmpty) (String.intercalate ",") ++
  segU "switches" s.switches renderSwitches ++
  segG "workdir" s.workdir (fun w => w != "") (fun w => w) ++
  segG "output" s.output (fun o => o != "") (fun o => o) ++
  segG "error" s.error (fun e => e != "") (fun e => e) ++
  segG "input" s.input (fun i => i != "") (fun i => i) ++
  segG "open-mode" s.open_mode (fun om => om != "") (fun om => om) ++
  mailSeg s.mail_type s.mail_user ++
  segU "signal" s.signal renderSignal ++
  segG "reservation" s.reservation (fun r => r != "") (fun r => r) ++
  segG "begin" s.begin BeginVal.truthy renderBegin ++
  segFlag "immediate" s.immediate none ++
  segU "deadline" s.deadline DateTimeVal.isoformat ++
  segG "qos" s.qos (fun q => q != "") (fun q => q) ++
  segG "account" s.account (fun a => a != "") (fun a => a) ++
  segG "licenses" s.licenses (fun l => !l.isEmpty)
    (fun l => String.intercalate "," (l.map render_license)) ++
  segG "clusters" s.clusters (fun l => !l.isEmpty) (String.intercalate ",") ++
  exportSeg s.export_vars s.set_vars ++
  segG "export-file" s.export_file ExportFile.truthy ExportFile.toStr ++
  render_option "parsable" none ++
  render_option "quiet" none ++
  s.body

/-- The integer value of a decimal digit string (Python `int()`). -/
def digitsVal (cs : List Char) : Int :=
  cs.foldl (fun a c => a * 10 + ((c.toNat : Int) - 48)) 0

/-- Embeds `parse_job_id_regexp` (job.py:46): `re.match(r"^(\d+)$", out)`, where
`$` also matches just before one trailing newline. -/
def parse_job_id (out : String) : Option Int :=
  let cs := if out.data.getLast? = some '\n' then out.data.dropLast else out.data
  if decide (cs ≠ []) && cs.all Char.isDigit then some (digitsVal cs) else none

/-- Embeds `submit` (job.py:400-413).  The external round trip is a
collaborator: its exit code, stdout and stderr are parameters.  A
non-zero exit raises before any mutation; on a zero exit `submitted` is
set first, then the job id is parsed (an unparsable response raises
`AttributeError` from the `None.group(1)` access, with `submitted`
already set). -/
def submit (sbatch_path : String) (returncode : Int) (stdoutdata stderrdata : String)
    (s : State) : Except (String × State) (State × Int) :=
  if returncode ≠ 0 then
    .error (sbatch_path ++ " failed to submit job \x27" ++ s.name ++
            "\x27 with the following error message:\n" ++ stderrdata, s)
  else
    let s := {s with submitted := true}
    match parse_job_id stdoutdata with
    | some j => .ok ({s with job_id := some j}, j)
    | none => .error ("AttributeError: \x27NoneType\x27 object has no attribute \x27group\x27", s)

/-- Embeds `chain_jobs` (job.py:415-417): declared with an empty parameter
list and the body `pass` (a TODO stub) — it takes no arguments and
does nothing. -/
def chain_jobs : Unit := ()

/-- The number of parameters in the `chain_jobs` declaration. -/
def chain_jobs_num_params : Nat := 0

/-- The call arity check of Python for a function without varargs/keywords:
a call with `num_args` positional arguments is accepted exactly when it
matches the declared parameter count. -/
def python_call_arity_ok (num_params num_args : Nat) : Bool :=
  num_args == num_params

/-- An object before `__init__` runs: no option attribute set yet
(each is assigned during construction; `job_id` only by `submit`). -/
def blankState : State :=
  { submitted := false, name := "", partitions := none, time := none,
    time_min := none, minnodes := none, maxnodes := none,
    use_min_nodes := false, core_spec := none, thread_spec := none,
    mincpus := none, sockets_per_node := none, cores_per_socket := none,
    threads_per_core := none, mem := none, mem_per_cpu := none,
    tmp := none, constraints := none, gres := none,
    gres_enforce_binding := false, contiguous := false, nodelist := none,
    nodefile := none, exclude := none, switches := none, workdir := none,
    output := none, error := none, input := none, open_mode := none,
    mail_user := none, mail_type := none, signal := none,
    reservation := none, immediate := false, begin := none,
    deadline := none, qos := none, account := none, licenses := none,
    clusters := none, export_vars := none, set_vars := none,
    export_file := none, body := "", job_id := none }

/-- Embeds `SLURMJob.__init__` (job.py:108-152): the recognised keyword
arguments, threaded through the setters in source order.  Note that the
constructor passes its popped `open_mode` (default `None`) as the mode,
not the default mode w of `set_job_streams` itself. -/
def SLURMJob_init (name : String) (partition : Option StrOrList)
    (time time_min : Option Timedelta) (workdir : Option String)
    (output error input : Option String) (open_mode : Option String)
    (mail_user mail_type : Option String) (body : String) :
    Except (String × State) State := do
  let s : State := {blankState with submitted := false, name := name}
  let s := set_partitions partition s
  let s ← set_time time time_min s
  let s ← set_nnodes none none false s
  let s ← set_specialized none none s
  let s ← set_constraints none none none none none none none none none false false
            none none none none s
  let s := set_workdir workdir s
  let s ← set_job_streams output error input open_mode s
  let s ← set_email mail_user mail_type s
  let s := {s with signal := none}
  let s ← set_reservation none s
  let s ← defer_allocation none false s
  let s ← set_deadline none s
  let s := set_qos none s
  let s := set_account none s
  let s ← set_licenses none s
  let s := set_clusters none s
  let s ← set_export_env none none none s
  let s := set_body body s
  return s

/-- Render one (option-name, value) entry as its directive line. -/
def rend (e : String × Option String) : String := render_option e.1 e.2

/-- Concatenation of a list of line strings. -/
def concatLines : List String → String
  | [] => ""
  | [x] => x
  | x :: rest => x ++ concatLines rest

/-- A guarded entry: present and truthy values produce one entry. -/
def entG {α : Type} (nm : String) (v : Option α) (g : α → Bool) (fm : α → String) :
    List (String × Option String) :=
  match v with
  | some x => if g x then [(nm, some (fm x))] else []
  | none => []

/-- An unconditional entry for a value that is always truthy when present. -/
def entU {α : Type} (nm : String) (v : Option α) (fm : α → String) :
    List (String × Option String) :=
  match v with
  | some x => [(nm, some (fm x))]
  | none => []

/-- A boolean-guarded entry (flags and the job name). -/
def entFlag (nm : String) (b : Bool) (v : Option String) :
    List (String × Option String) :=
  if b then [(nm, v)] else []

/-- The entries of the `extra_node_info` block. -/
def eniEntries (a b c : Option Int) : List (String × Option String) :=
  if a.isNone || b.isNone || c.isNone then
    entG "sockets-per-node" a (fun n => n != 0) toString ++
    entG "cores-per-socket" b (fun n => n != 0) toString ++
    entG "threads-per-core" c (fun n => n != 0) toString
  else
    [("extra-node-info",
      some (toString (a.getD 0) ++ ":" ++ toString (b.getD 0) ++ ":" ++ toString (c.getD 0)))]

/-- The entries of the mail block: a truthy `mail_type` contributes a
`mail-type` entry and a `mail-user` entry (even for an absent user). -/
def mailEntries (mt mu : Option String) : List (String × Option String) :=
  match mt with
  | some x =>
    if x != "" then [("mail-type", some x), ("mail-user", some (pyStrOpt mu))] else []
  | none => []

/-- The entries of the export block: `export_vars` and `set_vars`
share a single `export` entry. -/
def exportEntries (ev : Option ExportVars) (sv : Option (List (String × String))) :
    List (String × Option String) :=
  if truthyEV ev || truthyL sv then
    (if exportIsAllNone ev then
      [("export", some (exportAllNoneVal ev))]
    else
      [("export", some (String.intercalate "," (exportJoinItems ev sv)))])
  else []

/-- Modelled from the spec (claims C1/C10): the rendered header as a
list of (option-name, value) entries — one entry per emitted directive
line, in the fixed render order.  A present option produces an entry
exactly when its stored value is truthy, except that: all-present
`sockets_per_node`/`cores_per_socket`/`threads_per_core` merge into a
single `extra-node-info` entry; a present `mail_type` drags along a
`mail-user` entry even when `mail_user` is absent; `export_vars` and
`set_vars` share one `export` entry. -/
def headerEntries (s : State) : List (String × Option String) :=
  entFlag "job-name" (s.name != "") (some s.name) ++
  entG "partition" s.partitions (fun l => !l.isEmpty) (String.intercalate ",") ++
  entG "time" s.time (fun x => x.total != 0) format_timedelta ++
  entG "time-min" s.time_min (fun x => x.total != 0) format_timedelta ++
  entG "nodes" s.minnodes (fun n => n != 0) (fun n => renderNodes n s.maxnodes) ++
  entFlag "use-min-nodes" s.use_min_nodes none ++
  entG "core-spec" s.core_spec (fun n => n != 0) toString ++
  entG "thread-spec" s.thread_spec (fun n => n != 0) toString ++
  entG "mincpus" s.mincpus (fun n => n != 0) toString ++
  eniEntries s.sockets_per_node s.cores_per_socket s.threads_per_core ++
  entG "mem" s.mem MemSize.truthy MemSize.toStr ++
  entG "mem_per_cpu" s.mem_per_cpu MemSize.truthy MemSize.toStr ++
  entG "tmp" s.tmp MemSize.truthy MemSize.toStr ++
  entG "constraint" s.constraints (fun c => c != "") (fun c => c) ++
  entG "gres" s.gres (fun l => !l.isEmpty)
    (fun l => String.intercalate "," (l.map render_gres)) ++
  entFlag "gres-flags" s.gres_enforce_binding (some "enforce-binding") ++
  entFlag "contiguous" s.contiguous none ++
  entG "nodelist" s.nodelist (fun l => !l.isEmpty) (String.intercalate ",") ++
  entG "nodefile" s.nodefile (fun f => f != "") (fun f => f) ++
  entG "exclude" s.exclude (fun l => !l.isEmpty) (String.intercalate ",") ++
  entU "switches" s.switches renderSwitches ++
  entG "workdir" s.workdir (fun w => w != "") (fun w => w) ++
  entG "output" s.output (fun o => o != "") (fun o => o) ++
  entG "error" s.error (fun e => e != "") (fun e => e) ++
  entG "input" s.input (fun i => i != "") (fun i => i) ++
  entG "open-mode" s.open_mode (fun om => om != "") (fun om => om) ++
  mailEntries s.mail_type s.mail_user ++
  entU "signal" s.signal renderSignal ++
  entG "reservation" s.reservation (fun r => r != "") (fun r => r) ++
  entG "begin" s.begin BeginVal.truthy renderBegin ++
  entFlag "immediate" s.immediate none ++
  entU "deadline" s.deadline DateTimeVal.isoformat ++
  entG "qos" s.qos (fun q => q != "") (fun q => q) ++
  entG "account" s.account (fun a => a != "") (fun a => a) ++
  entG "licenses" s.licenses (fun l => !l.isEmpty)
    (fun l => String.intercalate "," (l.map render_license)) ++
  entG "clusters" s.clusters (fun l => !l.isEmpty) (String.intercalate ",") ++
  exportEntries s.export_vars s.set_vars ++
  entG "export-file" s.export_file ExportFile.truthy ExportFile.toStr

/-- The rendered header lines, one per entry. -/
def headerLines (s : State) : List String := (headerEntries s).map rend

/-- The option names of the emitted directive lines, in order. -/
def headerNames (s : State) : List String := (headerEntries s).map Prod.fst

/-- Modelled from the spec (claim C2): `MM:SS` below one hour,
`HH:MM:SS` below one day, `D-HH:MM:SS` from one day up, with
zero-padded two-digit fields and a non-padded day count. -/
def durationSpecFormat (n : Nat) : String :=
  if n < 3600 then
    pad2 (n % 3600 / 60) ++ ":" ++ pad2 (n % 60)
  else if n < 86400 then
    pad2 (n % 86400 / 3600) ++ ":" ++ pad2 (n % 3600 / 60) ++ ":" ++ pad2 (n % 60)
  else
    toString (n / 86400) ++ "-" ++ pad2 (n % 86400 / 3600) ++ ":" ++
    pad2 (n % 3600 / 60) ++ ":" ++ pad2 (n % 60)

/-- Python truthiness of an optional value under guard `g`. -/
def optTruthy {α : Type} (g : α → Bool) (v : Option α) : Bool :=
  match v with
  | some x => g x
  | none => false

/-- A name list with one element when the guard holds. -/
def nameIf (b : Bool) (nm : String) : List String :=
  if b then [nm] else []

/-- The number of present-and-truthy options of a job (the options the
registry would hold; `submitted`, `body` and `job_id` are not options). -/
def countTruthyOptions (s : State) : Nat :=
  (if s.name != "" then 1 else 0) +
  (if optTruthy (fun l => !l.isEmpty) s.partitions then 1 else 0) +
  (if optTruthy (fun x => x.total != 0) s.time then 1 else 0) +
  (if optTruthy (fun x => x.total != 0) s.time_min then 1 else 0) +
  (if optTruthy (fun n => n != 0) s.minnodes then 1 else 0) +
  (if optTruthy (fun n => n != 0) s.maxnodes then 1 else 0) +
  (if s.use_min_nodes then 1 else 0) +
  (if optTruthy (fun n => n != 0) s.core_spec then 1 else 0) +
  (if optTruthy (fun n => n != 0) s.thread_spec then 1 else 0) +
  (if optTruthy (fun n => n != 0) s.mincpus then 1 else 0) +
  (if optTruthy (fun n => n != 0) s.sockets_per_node then 1 else 0) +
  (if optTruthy (fun n => n != 0) s.cores_per_socket then 1 else 0) +
  (if optTruthy (fun n => n != 0) s.threads_per_core then 1 else 0) +
  (if optTruthy MemSize.truthy s.mem then 1 else 0) +
  (if optTruthy MemSize.truthy s.mem_per_cpu then 1 else 0) +
  (if optTruthy MemSize.truthy s.tmp then 1 else 0) +
  (if optTruthy (fun c => c != "") s.constraints then 1 else 0) +
  (if optTruthy (fun l : List Gres => !l.isEmpty) s.gres then 1 else 0) +
  (if s.gres_enforce_binding then 1 else 0) +
  (if s.contiguous then 1 else 0) +
  (if optTruthy (fun l : List String => !l.isEmpty) s.nodelist then 1 else 0) +
  (if optTruthy (fun f => f != "") s.nodefile then 1 else 0) +
  (if optTruthy (fun l : List String => !l.isEmpty) s.exclude then 1 else 0) +
  (if s.switches.isSome then 1 else 0) +
  (if optTruthy (fun w => w != "") s.workdir then 1 else 0) +
  (if optTruthy (fun o => o != "") s.output then 1 else 0) +
  (if optTruthy (fun e => e != "") s.error then 1 else 0) +
  (if optTruthy (fun i => i != "") s.input then 1 else 0) +
  (if optTruthy (fun om => om != "") s.open_mode then 1 else 0) +
  (if optTruthy (fun u => u != "") s.mail_user then 1 else 0) +
  (if optTruthy (fun x => x != "") s.mail_type then 1 else 0) +
  (if s.signal.isSome then 1 else 0) +
  (if optTruthy (fun r => r != "") s.reservation then 1 else 0) +
  (if s.immediate then 1 else 0) +
  (if optTruthy BeginVal.truthy s.begin then 1 else 0) +
  (if s.deadline.isSome then 1 else 0) +
  (if optTruthy (fun q => q != "") s.qos then 1 else 0) +
  (if optTruthy (fun a => a != "") s.account then 1 else 0) +
  (if optTruthy (fun l : List License => !l.isEmpty) s.licenses then 1 else 0) +
  (if optTruthy (fun l : List String => !l.isEmpty) s.clusters then 1 else 0) +
  (if truthyEV s.export_vars then 1 else 0) +
  (if truthyL s.set_vars then 1 else 0) +
  (if optTruthy ExportFile.truthy s.export_file then 1 else 0)

/-- Test fixture: the `hello_world` document of the end-to-end example. -/
def helloJob : State :=
  {blankState with name := "hello_world", partitions := some ["debug"],
                   body := "srun -n ${SLURM_NTASKS} pwd\n"}

/-- Test fixture: a job whose three extra-node-info options are all present. -/
def eniJob : State :=
  {blankState with sockets_per_node := some 2, cores_per_socket := some 2,
                   threads_per_core := some 2}

/-- Test fixture: a job with a mail type but no mail user. -/
def mailJob : State :=
  {blankState with mail_type := some "END"}

/-- Test fixture: a job with `mem` present. -/
def memJob : State :=
  {blankState with mem := some (.int 1)}

theorem concatLines_cons (x : String) (l : List String) :
    concatLines (x :: l) = x ++ concatLines l := by
  cases l with
  | nil => show x = x ++ "" ; rw [String.append_empty]
  | cons y ys => rfl

theorem concatLines_append (a b : List String) :
    concatLines (a ++ b) = concatLines a ++ concatLines b := by
  induction a with
  | nil => show concatLines b = "" ++ concatLines b ; rw [String.empty_append]
  | cons x rest ih =>
    rw [List.cons_append, concatLines_cons, concatLines_cons, ih, String.append_assoc]

theorem concatLines_entG {α : Type} (nm : String) (v : Option α) (g : α → Bool)
    (fm : α → String) :
    concatLines ((entG nm v g fm).map rend) = segG nm v g fm := by
  cases v with
  | none => rfl
  | some x =>
    rw [entG, segG]
    split
    · rfl
    · rfl

theorem concatLines_entU {α : Type} (nm : String) (v : Option α) (fm : α → String) :
    concatLines ((entU nm v fm).map rend) = segU nm v fm := by
  cases v <;> rfl

theorem concatLines_entFlag (nm : String) (b : Bool) (v : Option String) :
    concatLines ((entFlag nm b v).map rend) = segFlag nm b v := by
  cases b <;> rfl

theorem concatLines_eni (a b c : Option Int) :
    concatLines ((eniEntries a b c).map rend) = eniSeg a b c := by
  rw [eniEntries, eniSeg]
  split
  · rw [List.map_append, List.map_append, concatLines_append, concatLines_append,
      concatLines_entG, concatLines_entG, concatLines_entG]
  · rfl

theorem concatLines_mail (mt mu : Option String) :
    concatLines ((mailEntries mt mu).map rend) = mailSeg mt mu := by
  cases mt with
  | none => rfl
  | some x =>
    rw [mailEntries, mailSeg]
    split
    · rfl
    · rfl

theorem concatLines_export (ev : Option ExportVars) (sv : Option (List (String × String))) :
    concatLines ((exportEntries ev sv).map rend) = exportSeg ev sv := by
  rw [exportEntries, exportSeg]
  split
  · split
    · rfl
    · rfl
  · rfl

/-- The `dump` text decomposes as: interpreter line, the header lines
of `headerEntries` in order, the two control directives, the body. -/
theorem dump_eq_header (shell_path : String) (s : State) :
    dump shell_path s =
      "#!" ++ shell_path ++ "\n" ++ concatLines (headerLines s) ++
      render_option "parsable" none ++ render_option "quiet" none ++ s.body := by
  rw [dump, headerLines, headerEntries]
  simp only [List.map_append, concatLines_append, concatLines_entG, concatLines_entU,
    concatLines_entFlag, concatLines_eni, concatLines_mail, concatLines_export,
    String.append_assoc]

theorem subScan_nil : subScan [] = [] := by rw [subScan]

theorem specTiles_nil : specTiles [] = true := by rw [specTiles]

theorem subScan_not_percent (c : Char) (rest : List Char) (hc : ¬c = '%') :
    subScan (c :: rest) = c :: subScan rest := by
  rw [subScan]
  simp only [if_neg hc]

theorem specTiles_not_percent (c : Char) (rest : List Char) (hc : ¬c = '%') :
    specTiles (c :: rest) = specTiles rest := by
  rw [specTiles]
  simp only [if_neg hc]

theorem subScan_percent (rest : List Char) :
    subScan ('%' :: rest) =
      (match rest.dropWhile Char.isDigit with
       | d :: tail => if isConvChar d then subScan tail else '%' :: subScan rest
       | [] => '%' :: subScan rest) := by
  rw [subScan]
  simp only [if_true]
  split
  · next d tail heq => rw [heq]
  · next heq => rw [heq]

theorem specTiles_percent (rest : List Char) :
    specTiles ('%' :: rest) =
      (match rest.dropWhile Char.isDigit with
       | d :: tail => isConvChar d && specTiles tail
       | [] => false) := by
  rw [specTiles]
  simp only [if_true]
  split
  · next d tail heq => rw [heq]
  · next heq => rw [heq]

theorem subScan_specTiles (cs : List Char) :
    (!(subScan cs).contains '%') = specTiles cs := by
  induction cs using subScan.induct with
  | case1 => rw [subScan_nil, specTiles_nil] ; rfl
  | case2 rest d tail hdw hconv ih =>
    rw [subScan_percent, specTiles_percent, hdw]
    simp only [if_pos hconv, hconv, Bool.true_and]
    exact ih
  | case3 rest d tail hdw hconv ih =>
    rw [subScan_percent, specTiles_percent, hdw]
    simp only [if_neg hconv, List.contains_cons]
    simp [hconv]
  | case4 rest hdw ih =>
    rw [subScan_percent, specTiles_percent, hdw]
    simp
  | case5 c rest hc ih =>
    rw [subScan_not_percent c rest hc, specTiles_not_percent c rest hc]
    simp only [List.contains_cons, Bool.not_or]
    have hbc : ('%' == c) = false := beq_eq_false_iff_ne.mpr (fun he => hc he.symm)
    rw [hbc]
    simp only [Bool.not_false, Bool.true_and]
    exact ih

theorem toString_int_ofNat (k : Nat) : toString ((k : Int)) = toString k := rfl

theorem checkStore_ok {α β : Type} (setter : String) (v : Option α)
    (cks : List ((α → Bool) × String)) (ap : α → β) (w : Option β)
    (h : checkStore setter v cks ap = .ok w) : w = v.map ap := by
  cases v with
  | none =>
    simp only [checkStore] at h
    cases h
    rfl
  | some x =>
    simp only [checkStore] at h
    cases hf : List.find? (fun ck => !ck.1 x) cks with
    | some ck => rw [hf] at h; cases h
    | none => rw [hf] at h; cases h; rfl

theorem checkStore_ok_id {α : Type} (setter : String) (v : Option α)
    (cks : List ((α → Bool) × String)) (w : Option α)
    (h : checkStore setter v cks id = .ok w) : w = v := by
  have := checkStore_ok setter v cks id w h
  simpa using this

theorem set_time_ok (time time_min : Option Timedelta) (s r : State)
    (h : set_time time time_min s = .ok r) :
    r = {s with time := time, time_min := time_min} := by
  simp only [set_time] at h
  split at h
  · cases h
  · next tv htv =>
    split at h
    · cases h
    · next tmv htmv =>
      cases h
      rw [checkStore_ok_id _ _ _ _ htv, checkStore_ok_id _ _ _ _ htmv]

theorem set_nnodes_ok (minnodes maxnodes : Option Int) (u : Bool) (s r : State)
    (h : set_nnodes minnodes maxnodes u s = .ok r) :
    r = {s with minnodes := minnodes, maxnodes := maxnodes, use_min_nodes := u} := by
  simp only [set_nnodes] at h
  split at h
  · cases h
  · next mn hmn =>
    split at h
    · cases h
    · next mx hmx =>
      cases h
      rw [checkStore_ok_id _ _ _ _ hmn, checkStore_ok_id _ _ _ _ hmx]

theorem set_specialized_ok (cores threads : Option Int) (s r : State)
    (h : set_specialized cores threads s = .ok r) :
    r = {s with core_spec := cores, thread_spec := threads} := by
  simp only [set_specialized] at h
  split at h
  · cases h
  · next cv hcv =>
    split at h
    · cases h
    · next tv htv =>
      split at h
      · cases h
      · cases h
        rw [checkStore_ok_id _ _ _ _ hcv, checkStore_ok_id _ _ _ _ htv]

theorem set_job_streams_ok (output error input mode : Option String) (s r : State)
    (h : set_job_streams output error input mode s = .ok r) :
    r = {s with output := output, error := error, input := input,
                open_mode := mode.map (fun mo => if mo = "w" then "truncate" else "append")} := by
  simp only [set_job_streams] at h
  split at h
  · cases h
  · next ov hov =>
    split at h
    · cases h
    · next ev hev =>
      split at h
      · cases h
      · next iv hiv =>
        split at h
        · cases h
        · next mv hmv =>
          cases h
          rw [checkStore_ok_id _ _ _ _ hov, checkStore_ok_id _ _ _ _ hev,
            checkStore_ok_id _ _ _ _ hiv, checkStore_ok _ _ _ _ _ hmv]

theorem set_job_streams_default_ok (output error input : Option String) (s r : State)
    (h : set_job_streams output error input set_job_streams_default_mode s = .ok r) :
    r = {s with output := output, error := error, input := input,
                open_mode := some "truncate"} := by
  have hh := set_job_streams_ok output error input set_job_streams_default_mode s r h
  have hm : set_job_streams_default_mode.map
      (fun mo => if mo = "w" then "truncate" else "append") = some "truncate" := by decide
  rw [hm] at hh
  exact hh

theorem set_constraints_ok (mincpus sockets_per_node cores_per_socket threads_per_core : Option Int)
    (mem mem_per_cpu tmp : Option MemSize) (constraints : Option String)
    (gres : Option (List GresArg)) (geb contiguous : Bool)
    (nodelist : Option (List String)) (nodefile : Option String)
    (exclude : Option (List String)) (switches : Option SwitchesArg) (s r : State)
    (h : set_constraints mincpus sockets_per_node cores_per_socket threads_per_core
          mem mem_per_cpu tmp constraints gres geb contiguous nodelist nodefile
          exclude switches s = .ok r) :
    r = {s with mincpus := mincpus, sockets_per_node := sockets_per_node,
                cores_per_socket := cores_per_socket, threads_per_core := threads_per_core,
                mem := mem, mem_per_cpu := mem_per_cpu, tmp := tmp,
                constraints := constraints, gres := gres.map (List.map normGresArg),
                gres_enforce_binding := geb, contiguous := contiguous,
                nodelist := nodelist, nodefile := nodefile, exclude := exclude,
                switches := switches.map normSwitchesArg} := by
  simp only [set_constraints] at h
  split at h
  · cases h
  · next v1 h1 =>
  split at h
  · cases h
  · next v2 h2 =>
  split at h
  · cases h
  · next v3 h3 =>
  split at h
  · cases h
  · next v4 h4 =>
  split at h
  · cases h
  · next v5 h5 =>
  split at h
  · cases h
  · next v6 h6 =>
  split at h
  · cases h
  · next v7 h7 =>
  split at h
  · cases h
  · split at h
    · cases h
    · next v8 h8 =>
    split at h
    · cases h
    · next v9 h9 =>
    split at h
    · cases h
    · next v10 h10 =>
    split at h
    · cases h
    · next v11 h11 =>
    split at h
    · cases h
    · next v12 h12 =>
      cases h
      rw [checkStore_ok_id _ _ _ _ h1, checkStore_ok_id _ _ _ _ h2,
        checkStore_ok_id _ _ _ _ h3, checkStore_ok_id _ _ _ _ h4,
        checkStore_ok_id _ _ _ _ h5, checkStore_ok_id _ _ _ _ h6,
        checkStore_ok_id _ _ _ _ h7, checkStore_ok_id _ _ _ _ h8,
        checkStore_ok _ _ _ _ _ h9, checkStore_ok_id _ _ _ _ h10,
        checkStore_ok_id _ _ _ _ h11, checkStore_ok _ _ _ _ _ h12]

theorem set_email_ok_none (mail_user : Option String) (s : State) :
    set_email mail_user none s = .ok {s with mail_user := none, mail_type := none} := rfl

theorem set_email_ok (mail_user mail_type : Option String) (s r : State)
    (h : set_email mail_user mail_type s = .ok r) :
    r = (if mail_type = none ∨ mail_type = some "NONE" then
          {s with mail_user := none, mail_type := none}
         else {s with mail_type := mail_type, mail_user := mail_user}) := by
  cases mail_type with
  | none =>
    simp only [set_email] at h
    cases h
    simp
  | some mt =>
    simp only [set_email] at h
    by_cases hmt : mt = "NONE"
    · rw [if_pos hmt] at h
      cases h
      simp [hmt]
    · rw [if_neg hmt] at h
      split at h
      · cases h
      · cases h
        have : ¬(some mt = none ∨ some mt = some "NONE") := by simp [hmt]
        rw [if_neg this]

theorem defer_allocation_ok (begin : Option BeginVal) (immediate : Bool) (s r : State)
    (h : defer_allocation begin immediate s = .ok r) :
    r = {s with immediate := immediate, begin := begin} := by
  simp only [defer_allocation] at h
  split at h
  · cases h
  · next bv hbv =>
    cases h
    rw [checkStore_ok_id _ _ _ _ hbv]

theorem set_export_env_ok (export_vars : Option ExportVars)
    (set_vars : Option (List (String × String))) (export_file : Option ExportFile)
    (s r : State) (h : set_export_env export_vars set_vars export_file s = .ok r) :
    r = {s with export_vars := export_vars, set_vars := set_vars,
                export_file := export_file} := by
  simp only [set_export_env] at h
  split at h
  · cases h
  · next ev hev =>
    split at h
    · cases h
    · next sv hsv =>
      split at h
      · cases h
      · next fv hfv =>
        cases h
        rw [checkStore_ok_id _ _ _ _ hev, checkStore_ok_id _ _ _ _ hsv,
          checkStore_ok_id _ _ _ _ hfv]

theorem set_time_neg_time (s : State) (t : Timedelta) (tm : Option Timedelta)
    (h : t.total < 0) :
    set_time (some t) tm s =
      .error ("set_time: negative \x27time\x27 durations are not allowed", s) := by
  simp only [set_time, checkStore, List.find?]
  have : (decide (0 ≤ t.total)) = false := by simp; omega
  simp [this]

theorem set_time_neg_time_min (s : State) (t0 t : Timedelta)
    (h0 : 0 ≤ t0.total) (h : t.total < 0) :
    set_time (some t0) (some t) s =
      .error ("set_time: negative \x27time_min\x27 durations are not allowed",
              {s with time := some t0}) := by
  simp only [set_time, checkStore, List.find?]
  have e0 : (decide (0 ≤ t0.total)) = true := by simpa using h0
  have e1 : (decide (0 ≤ t.total)) = false := by simp; omega
  simp [e0, e1]

theorem defer_allocation_neg (s : State) (t : Timedelta) (imm : Bool)
    (h : t.total < 0) :
    defer_allocation (some (.td t)) imm s =
      .error ("defer_allocation: negative \x27begin\x27 durations are not allowed",
              {s with immediate := imm}) := by
  have hd : t.days < 0 := by
    show t.total.fdiv 86400 < 0
    rw [Int.fdiv_eq_ediv _ (by norm_num)]
    omega
  simp only [defer_allocation, checkStore, List.find?]
  have : (decide (t.days < 0)) = true := by simpa using hd
  simp [this]

theorem set_nnodes_nonpos_min (s : State) (mn : Int) (mx : Option Int) (u : Bool)
    (h : mn ≤ 0) :
    set_nnodes (some mn) mx u s =
      .error ("set_nnodes: \x27minnodes\x27 must be positive", s) := by
  simp only [set_nnodes, checkStore, List.find?]
  have : (decide (0 < mn)) = false := by simp; omega
  simp [this]

theorem set_nnodes_max_without_min (s : State) (mx : Int) (u : Bool) :
    set_nnodes none (some mx) u s =
      .error ("set_nnodes: cannot set \x27maxnodes\x27 without setting \x27minnodes\x27",
              {s with minnodes := none}) := by
  simp [set_nnodes, checkStore, List.find?]

theorem set_nnodes_nonpos_max (s : State) (mn mx : Int) (u : Bool)
    (h0 : 0 < mn) (h : mx ≤ 0) :
    set_nnodes (some mn) (some mx) u s =
      .error ("set_nnodes: \x27maxnodes\x27 must be positive", {s with minnodes := some mn}) := by
  simp only [set_nnodes, checkStore, List.find?]
  have e0 : (decide (0 < mn)) = true := by simpa using h0
  have e1 : (decide (0 < mx)) = false := by simp; omega
  simp [e0, e1]

theorem set_nnodes_max_lt_min (s : State) (mn mx : Int) (u : Bool)
    (h0 : 0 < mn) (h1 : 0 < mx) (h : mx < mn) :
    set_nnodes (some mn) (some mx) u s =
      .error ("set_nnodes: \x27minnodes\x27 cannot exceed \x27maxnodes\x27",
              {s with minnodes := some mn}) := by
  simp only [set_nnodes, checkStore, List.find?]
  have e0 : (decide (0 < mn)) = true := by simpa using h0
  have e1 : (decide (0 < mx)) = true := by simpa using h1
  have e2 : (decide (mn ≤ mx)) = false := by simp; omega
  simp [e0, e1, e2]

theorem set_constraints_neg_switches (s : State) (n : Int) (w : Timedelta)
    (h : w.total < 0) :
    set_constraints none none none none none none none none none false false
        none none none (some (.pair n w)) s =
      .error ("set_constraints: \x27switches\x27 invalid \x27switches\x27 specification",
              {s with mincpus := none, sockets_per_node := none, cores_per_socket := none,
                      threads_per_core := none, mem := none, mem_per_cpu := none,
                      tmp := none, constraints := none, gres := none,
                      gres_enforce_binding := false, contiguous := false,
                      nodelist := none, nodefile := none, exclude := none}) := by
  simp only [set_constraints, checkStore, List.find?]
  have : valid_switches (.pair n w) = false := by
    simp [valid_switches]
    omega
  simp [this]

theorem set_constraints_mem_exclusive (s : State) (a b : MemSize)
    (ha : valid_memory_size a = true) (hb : valid_memory_size b = true) :
    set_constraints none none none none (some a) (some b) none none none false false
        none none none none s =
      .error ("set_constraints: \x27mem\x27 and \x27mem_per_cpu\x27 options are mutually exclusive",
              {s with mincpus := none, sockets_per_node := none, cores_per_socket := none,
                      threads_per_core := none, mem := some a, mem_per_cpu := some b,
                      tmp := none}) := by
  simp only [set_constraints, checkStore, List.find?]
  simp [ha, hb]

theorem set_constraints_mem_alone (s : State) (a : MemSize)
    (ha : valid_memory_size a = true) :
    set_constraints none none none none (some a) none none none none false false
        none none none none s =
      .ok {s with mincpus := none, sockets_per_node := none, cores_per_socket := none,
                  threads_per_core := none, mem := some a, mem_per_cpu := none,
                  tmp := none, constraints := none, gres := none,
                  gres_enforce_binding := false, contiguous := false,
                  nodelist := none, nodefile := none, exclude := none,
                  switches := none} := by
  simp only [set_constraints, checkStore, List.find?]
  simp [ha]

theorem set_constraints_mem_per_cpu_alone (s : State) (b : MemSize)
    (hb : valid_memory_size b = true) :
    set_constraints none none none none none (some b) none none none false false
        none none none none s =
      .ok {s with mincpus := none, sockets_per_node := none, cores_per_socket := none,
                  threads_per_core := none, mem := none, mem_per_cpu := some b,
                  tmp := none, constraints := none, gres := none,
                  gres_enforce_binding := false, contiguous := false,
                  nodelist := none, nodefile := none, exclude := none,
                  switches := none} := by
  simp only [set_constraints, checkStore, List.find?]
  simp [hb]

theorem names_entG {α : Type} (nm : String) (v : Option α) (g : α → Bool)
    (fm : α → String) :
    (entG nm v g fm).map Prod.fst = nameIf (optTruthy g v) nm := by
  cases v with
  | none => rfl
  | some x =>
    rw [entG, optTruthy]
    split
    · next hx => rw [nameIf, if_pos hx]; rfl
    · next hx => rw [nameIf, if_neg hx]; rfl

theorem names_entU {α : Type} (nm : String) (v : Option α) (fm : α → String) :
    (entU nm v fm).map Prod.fst = nameIf v.isSome nm := by
  cases v <;> rfl

theorem names_entFlag (nm : String) (b : Bool) (v : Option String) :
    (entFlag nm b v).map Prod.fst = nameIf b nm := by
  cases b <;> rfl

theorem names_eni (a b c : Option Int) :
    (eniEntries a b c).map Prod.fst =
      (if a.isNone || b.isNone || c.isNone then
        nameIf (optTruthy (fun n => n != 0) a) "sockets-per-node" ++
        nameIf (optTruthy (fun n => n != 0) b) "cores-per-socket" ++
        nameIf (optTruthy (fun n => n != 0) c) "threads-per-core"
      else ["extra-node-info"]) := by
  rw [eniEntries]
  split
  · rw [List.map_append, List.map_append, names_entG, names_entG, names_entG]
  · rfl

theorem names_mail (mt mu : Option String) :
    (mailEntries mt mu).map Prod.fst =
      (if optTruthy (fun x => x != "") mt then ["mail-type", "mail-user"] else []) := by
  cases mt with
  | none => rfl
  | some x =>
    rw [mailEntries, optTruthy]
    split
    · rfl
    · rfl

theorem names_export (ev : Option ExportVars) (sv : Option (List (String × String))) :
    (exportEntries ev sv).map Prod.fst =
      nameIf (truthyEV ev || truthyL sv) "export" := by
  rw [exportEntries, nameIf]
  split
  · split
    · rfl
    · rfl
  · rfl

/-- The emitted option names, segment by segment. -/
theorem headerNames_eq (s : State) :
    headerNames s =
      nameIf (s.name != "") "job-name" ++
      nameIf (optTruthy (fun l => !l.isEmpty) s.partitions) "partition" ++
      nameIf (optTruthy (fun x => x.total != 0) s.time) "time" ++
      nameIf (optTruthy (fun x => x.total != 0) s.time_min) "time-min" ++
      nameIf (optTruthy (fun n => n != 0) s.minnodes) "nodes" ++
      nameIf s.use_min_nodes "use-min-nodes" ++
      nameIf (optTruthy (fun n => n != 0) s.core_spec) "core-spec" ++
      nameIf (optTruthy (fun n => n != 0) s.thread_spec) "thread-spec" ++
      nameIf (optTruthy (fun n => n != 0) s.mincpus) "mincpus" ++
      (if s.sockets_per_node.isNone || s.cores_per_socket.isNone ||
          s.threads_per_core.isNone then
        nameIf (optTruthy (fun n => n != 0) s.sockets_per_node) "sockets-per-node" ++
        nameIf (optTruthy (fun n => n != 0) s.cores_per_socket) "cores-per-socket" ++
        nameIf (optTruthy (fun n => n != 0) s.threads_per_core) "threads-per-core"
      else ["extra-node-info"]) ++
      nameIf (optTruthy MemSize.truthy s.mem) "mem" ++
      nameIf (optTruthy MemSize.truthy s.mem_per_cpu) "mem_per_cpu" ++
      nameIf (optTruthy MemSize.truthy s.tmp) "tmp" ++
      nameIf (optTruthy (fun c => c != "") s.constraints) "constraint" ++
      nameIf (optTruthy (fun l => !l.isEmpty) s.gres) "gres" ++
      nameIf s.gres_enforce_binding "gres-flags" ++
      nameIf s.contiguous "contiguous" ++
      nameIf (optTruthy (fun l => !l.isEmpty) s.nodelist) "nodelist" ++
      nameIf (optTruthy (fun f => f != "") s.nodefile) "nodefile" ++
      nameIf (optTruthy (fun l => !l.isEmpty) s.exclude) "exclude" ++
      nameIf s.switches.isSome "switches" ++
      nameIf (optTruthy (fun w => w != "") s.workdir) "workdir" ++
      nameIf (optTruthy (fun o => o != "") s.output) "output" ++
      nameIf (optTruthy (fun e => e != "") s.error) "error" ++
      nameIf (optTruthy (fun i => i != "") s.input) "input" ++
      nameIf (optTruthy (fun om => om != "") s.open_mode) "open-mode" ++
      (if optTruthy (fun x => x != "") s.mail_type then ["mail-type", "mail-user"] else []) ++
      nameIf s.signal.isSome "signal" ++
      nameIf (optTruthy (fun r => r != "") s.reservation) "reservation" ++
      nameIf (optTruthy BeginVal.truthy s.begin) "begin" ++
      nameIf s.immediate "immediate" ++
      nameIf s.deadline.isSome "deadline" ++
      nameIf (optTruthy (fun q => q != "") s.qos) "qos" ++
      nameIf (optTruthy (fun a => a != "") s.account) "account" ++
      nameIf (optTruthy (fun l => !l.isEmpty) s.licenses) "licenses" ++
      nameIf (optTruthy (fun l => !l.isEmpty) s.clusters) "clusters" ++
      nameIf (truthyEV s.export_vars || truthyL s.set_vars) "export" ++
      nameIf (optTruthy ExportFile.truthy s.export_file) "export-file" := by
  rw [headerNames, headerEntries]
  simp only [List.map_append, names_entG, names_entU, names_entFlag, names_eni,
    names_mail, names_export]

theorem mem_nameIf (x nm : String) (b : Bool) :
    x ∈ nameIf b nm ↔ (b = true ∧ x = nm) := by
  cases b <;> simp [nameIf]

theorem mem_ite_names (c : Prop) [Decidable c] (A B : List String) (x : String) :
    (x ∈ if c then A else B) ↔ ((c ∧ x ∈ A) ∨ (¬c ∧ x ∈ B)) := by
  split <;> simp_all


/-- Claim C2 (confirmed): `format_timedelta` is deterministic and, for
every non-negative duration, renders `MM:SS` below one hour, `HH:MM:SS`
(zero-padded two-digit hours) below one day, and `D-HH:MM:SS` with a
non-padded day count from one day up; concretely 45s, 35m12s, 7h12m55s
and 4d7h12m55s render as claimed. -/
theorem C2_duration_format :
    (∀ td : Timedelta, 0 ≤ td.total →
      format_timedelta td = durationSpecFormat td.total.toNat) ∧
    format_timedelta ⟨45⟩ = "00:45" ∧
    format_timedelta ⟨2112⟩ = "35:12" ∧
    format_timedelta ⟨25975⟩ = "07:12:55" ∧
    format_timedelta ⟨371575⟩ = "4-07:12:55" := by
  refine ⟨?_, by decide, by decide, by decide, by decide⟩
  rintro ⟨t⟩ h
  obtain ⟨n, rfl⟩ : ∃ n : Nat, t = ↑n := ⟨t.toNat, (Int.toNat_of_nonneg h).symm⟩
  have hsec : (Timedelta.mk ↑n).seconds = n % 86400 := by
    show ((↑n : Int) % 86400).toNat = n % 86400
    omega
  have hdays : (Timedelta.mk ↑n).days = ((n / 86400 : Nat) : Int) := by
    show (↑n : Int).fdiv 86400 = ((n / 86400 : Nat) : Int)
    rw [Int.fdiv_eq_ediv _ (by norm_num)]
    omega
  have htn : ((n : Int)).toNat = n := Int.toNat_natCast n
  have htot : (Timedelta.mk ↑n).total = (↑n : Int) := rfl
  rw [format_timedelta, durationSpecFormat, hsec, hdays, htn, htot]
  by_cases h1 : n < 3600
  · rw [if_pos (by exact_mod_cast h1), if_pos h1,
      Nat.mod_eq_of_lt (show n < 86400 by omega),
      Nat.mod_eq_of_lt (show n < 3600 by omega)]
  · by_cases h2 : n < 86400
    · rw [if_neg (by exact_mod_cast h1), if_neg h1, if_pos h2,
        Nat.div_eq_of_lt h2]
      rw [if_pos (by norm_num), Nat.mod_eq_of_lt h2,
        Nat.mod_mod_of_dvd n (by norm_num : (60 : Nat) ∣ 3600)]
    · rw [if_neg (by exact_mod_cast h1), if_neg h1, if_neg h2]
      rw [if_neg (by
        intro hc
        have : n / 86400 = 0 := by exact_mod_cast hc
        omega)]
      rw [Nat.mod_mod_of_dvd n (by norm_num : (3600 : Nat) ∣ 86400),
        Nat.mod_mod_of_dvd n (by norm_num : (60 : Nat) ∣ 3600),
        toString_int_ofNat]

/-- Witness for C2: the general duration statement applied at the
concrete duration 4d7h12m55s (371575 seconds). -/
theorem C2_duration_format_witness :
    format_timedelta ⟨371575⟩ =
      durationSpecFormat ((Timedelta.mk 371575).total.toNat) :=
  C2_duration_format.1 ⟨371575⟩ (by decide)

/-- Claim C3 counterexample: passing a valid `time` together with a
negative `time_min` to the same `set_time` call raises, but the new
`time` has already been stored — the option state after the failing
call differs from the state before it, refuting the no-partial-mutation
claim. -/
theorem C3_counterexample :
    set_time (some ⟨3600⟩) (some ⟨-60⟩) blankState =
      .error ("set_time: negative \x27time_min\x27 durations are not allowed",
              {blankState with time := some ⟨3600⟩}) ∧
    ({blankState with time := some ⟨3600⟩} : State) ≠ blankState :=
  ⟨by decide, by decide⟩

/-- Claim C3 (amended): every validation failure is raised
synchronously at the offending setter call and the offending option
itself is never stored; a negative duration passed to `time`,
`time_min`, `begin` or the `switches` wait-time always fails.  However,
options processed earlier in the same call keep their newly stored
values: a valid `time` with a negative `time_min` leaves the new `time`
in place, a failing `begin` leaves the just-assigned `immediate`, and a
failing `switches` leaves every earlier constraint option reset. -/
theorem C3_negative_durations :
    (∀ (s : State) (t : Timedelta) (tm : Option Timedelta), t.total < 0 →
      set_time (some t) tm s =
        .error ("set_time: negative \x27time\x27 durations are not allowed", s)) ∧
    (∀ (s : State) (t0 t : Timedelta), 0 ≤ t0.total → t.total < 0 →
      set_time (some t0) (some t) s =
        .error ("set_time: negative \x27time_min\x27 durations are not allowed",
                {s with time := some t0})) ∧
    (∀ (s : State) (t : Timedelta) (imm : Bool), t.total < 0 →
      defer_allocation (some (.td t)) imm s =
        .error ("defer_allocation: negative \x27begin\x27 durations are not allowed",
                {s with immediate := imm})) ∧
    (∀ (s : State) (n : Int) (w : Timedelta), w.total < 0 →
      set_constraints none none none none none none none none none false false
          none none none (some (.pair n w)) s =
        .error ("set_constraints: \x27switches\x27 invalid \x27switches\x27 specification",
                {s with mincpus := none, sockets_per_node := none, cores_per_socket := none,
                        threads_per_core := none, mem := none, mem_per_cpu := none,
                        tmp := none, constraints := none, gres := none,
                        gres_enforce_binding := false, contiguous := false,
                        nodelist := none, nodefile := none, exclude := none})) :=
  ⟨set_time_neg_time, set_time_neg_time_min, defer_allocation_neg,
   set_constraints_neg_switches⟩

/-- Witness for C3: a negative `time` alone fails and leaves the
state unchanged. -/
theorem C3_negative_durations_witness :
    set_time (some ⟨-1⟩) none blankState =
      .error ("set_time: negative \x27time\x27 durations are not allowed", blankState) :=
  C3_negative_durations.1 blankState ⟨-1⟩ none (by decide)

/-- Claim C4 counterexample: passing valid `mem` and `mem_per_cpu`
together raises the mutual-exclusion error, but both just-stored values
are retained in the option state — refuting "neither value is
retained". -/
theorem C4_counterexample :
    set_constraints none none none none (some (.int 1)) (some (.int 2)) none none none
        false false none none none none blankState =
      .error ("set_constraints: \x27mem\x27 and \x27mem_per_cpu\x27 options are mutually exclusive",
              {blankState with mem := some (.int 1), mem_per_cpu := some (.int 2)}) ∧
    ({blankState with mem := some (.int 1), mem_per_cpu := some (.int 2)} : State).mem =
      some (.int 1) :=
  ⟨by decide, by decide⟩

/-- Claim C4 (amended): `mem` and `mem_per_cpu` are mutually exclusive
within a single `set_constraints` call — passing both (valid sizes)
fails with the mutual-exclusion error while either alone succeeds; on
that failure both just-stored values are retained (the options already
processed are not rolled back). -/
theorem C4_mem_mutual_exclusion :
    (∀ (s : State) (a b : MemSize),
      valid_memory_size a = true → valid_memory_size b = true →
      set_constraints none none none none (some a) (some b) none none none false false
          none none none none s =
        .error ("set_constraints: \x27mem\x27 and \x27mem_per_cpu\x27 options are mutually exclusive",
                {s with mincpus := none, sockets_per_node := none, cores_per_socket := none,
                        threads_per_core := none, mem := some a, mem_per_cpu := some b,
                        tmp := none})) ∧
    (∀ (s : State) (a : MemSize), valid_memory_size a = true →
      set_constraints none none none none (some a) none none none none false false
          none none none none s =
        .ok {s with mincpus := none, sockets_per_node := none, cores_per_socket := none,
                    threads_per_core := none, mem := some a, mem_per_cpu := none,
                    tmp := none, constraints := none, gres := none,
                    gres_enforce_binding := false, contiguous := false,
                    nodelist := none, nodefile := none, exclude := none,
                    switches := none}) ∧
    (∀ (s : State) (b : MemSize), valid_memory_size b = true →
      set_constraints none none none none none (some b) none none none false false
          none none none none s =
        .ok {s with mincpus := none, sockets_per_node := none, cores_per_socket := none,
                    threads_per_core := none, mem := none, mem_per_cpu := some b,
                    tmp := none, constraints := none, gres := none,
                    gres_enforce_binding := false, contiguous := false,
                    nodelist := none, nodefile := none, exclude := none,
                    switches := none}) :=
  ⟨set_constraints_mem_exclusive, set_constraints_mem_alone,
   set_constraints_mem_per_cpu_alone⟩

/-- Witness for C4: the exclusion fires for `mem = 1` and
`mem_per_cpu = "2G"` on a fresh job. -/
theorem C4_mem_mutual_exclusion_witness :
    set_constraints none none none none (some (.int 1)) (some (.str "2G")) none none none
        false false none none none none blankState =
      .error ("set_constraints: \x27mem\x27 and \x27mem_per_cpu\x27 options are mutually exclusive",
              {blankState with mem := some (.int 1), mem_per_cpu := some (.str "2G")}) :=
  C4_mem_mutual_exclusion.1 blankState (.int 1) (.str "2G") (by decide) (by decide)

/-- Claim C5 (confirmed): `maxnodes` without `minnodes` in the call
fails, as do a non-positive node count and `maxnodes < minnodes`;
`minnodes=16, maxnodes=32` succeeds and `dump` then contains the line
`#SBATCH --nodes=16-32`; a present `minnodes` with absent `maxnodes`
renders as the bare `#SBATCH --nodes=16` (shown by the full dump
text of the two concrete documents). -/
theorem C5_nnodes :
    (∀ (s : State) (mx : Int) (u : Bool),
      set_nnodes none (some mx) u s =
        .error ("set_nnodes: cannot set \x27maxnodes\x27 without setting \x27minnodes\x27",
                {s with minnodes := none})) ∧
    (∀ (s : State) (mn : Int) (mx : Option Int) (u : Bool), mn ≤ 0 →
      set_nnodes (some mn) mx u s =
        .error ("set_nnodes: \x27minnodes\x27 must be positive", s)) ∧
    (∀ (s : State) (mn mx : Int) (u : Bool), 0 < mn → mx ≤ 0 →
      set_nnodes (some mn) (some mx) u s =
        .error ("set_nnodes: \x27maxnodes\x27 must be positive", {s with minnodes := some mn})) ∧
    (∀ (s : State) (mn mx : Int) (u : Bool), 0 < mn → 0 < mx → mx < mn →
      set_nnodes (some mn) (some mx) u s =
        .error ("set_nnodes: \x27minnodes\x27 cannot exceed \x27maxnodes\x27",
                {s with minnodes := some mn})) ∧
    set_nnodes (some 16) (some 32) false blankState =
      .ok {blankState with minnodes := some 16, maxnodes := some 32} ∧
    dump "/bin/sh" {blankState with minnodes := some 16, maxnodes := some 32} =
      "#!/bin/sh\n#SBATCH --nodes=16-32\n#SBATCH --parsable\n#SBATCH --quiet\n" ∧
    dump "/bin/sh" {blankState with minnodes := some 16} =
      "#!/bin/sh\n#SBATCH --nodes=16\n#SBATCH --parsable\n#SBATCH --quiet\n" :=
  ⟨set_nnodes_max_without_min, set_nnodes_nonpos_min, set_nnodes_nonpos_max,
   set_nnodes_max_lt_min, by decide, by decide, by decide⟩

/-- Witness for C5: a non-positive `minnodes` fails on a fresh job. -/
theorem C5_nnodes_witness :
    set_nnodes (some 0) none false blankState =
      .error ("set_nnodes: \x27minnodes\x27 must be positive", blankState) :=
  C5_nnodes.2.1 blankState 0 none false (by decide)

/-- Claim C7 (code bug): `chain_jobs` (job.py:415-417) is declared with
an empty parameter list and the body `pass` (a TODO stub): it builds no
dependency at all, and the documented call `chain_jobs([a, b, c],
afterok)` (doc/example/chain.py) fails the arity check of Python. -/
theorem C7_chain_jobs_stub :
    chain_jobs = () ∧ python_call_arity_ok chain_jobs_num_params 2 = false :=
  ⟨rfl, by decide⟩

/-- Claim C9 counterexample: calling `set_job_streams` and leaving its
`mode` parameter at the Python default w (job.py:235) does not reset
`open_mode` to absent — it stores the present, truthy value truncate,
which `dump` renders as an `--open-mode` directive line.  This refutes
the sentence that any parameter left at its default resets the
corresponding option to absent. -/
theorem C9_counterexample :
    set_job_streams none none none set_job_streams_default_mode blankState =
      .ok {blankState with open_mode := some "truncate"} ∧
    ({blankState with open_mode := some "truncate"} : State).open_mode ≠ none ∧
    dump "/bin/sh" {blankState with open_mode := some "truncate"} =
      "#!/bin/sh\n#SBATCH --open-mode=truncate\n#SBATCH --parsable\n#SBATCH --quiet\n" :=
  ⟨by decide, by decide, by decide⟩

/-- Claim C9 (corrected): every grouped setter overwrites the entire
group of options it manages — a successful call determines the group
from the arguments of that call alone and leaves all other fields
unchanged; an omitted parameter resets its option to absent (or its
default flag) EXCEPT the `mode` parameter of `set_job_streams`, whose
default is w, so a call leaving it at its default stores `open_mode` as
the present value truncate; in particular a `set_constraints` call that
only passes `tmp` clears a previously stored `mem`. -/
theorem C9_group_overwrite :
    (∀ (time time_min : Option Timedelta) (s r : State),
      set_time time time_min s = .ok r →
        r = {s with time := time, time_min := time_min}) ∧
    (∀ (minnodes maxnodes : Option Int) (u : Bool) (s r : State),
      set_nnodes minnodes maxnodes u s = .ok r →
        r = {s with minnodes := minnodes, maxnodes := maxnodes, use_min_nodes := u}) ∧
    (∀ (cores threads : Option Int) (s r : State),
      set_specialized cores threads s = .ok r →
        r = {s with core_spec := cores, thread_spec := threads}) ∧
    (∀ (mincpus sockets_per_node cores_per_socket threads_per_core : Option Int)
        (mem mem_per_cpu tmp : Option MemSize) (constraints : Option String)
        (gres : Option (List GresArg)) (geb contiguous : Bool)
        (nodelist : Option (List String)) (nodefile : Option String)
        (exclude : Option (List String)) (switches : Option SwitchesArg) (s r : State),
      set_constraints mincpus sockets_per_node cores_per_socket threads_per_core
          mem mem_per_cpu tmp constraints gres geb contiguous nodelist nodefile
          exclude switches s = .ok r →
        r = {s with mincpus := mincpus, sockets_per_node := sockets_per_node,
                    cores_per_socket := cores_per_socket, threads_per_core := threads_per_core,
                    mem := mem, mem_per_cpu := mem_per_cpu, tmp := tmp,
                    constraints := constraints, gres := gres.map (List.map normGresArg),
                    gres_enforce_binding := geb, contiguous := contiguous,
                    nodelist := nodelist, nodefile := nodefile, exclude := exclude,
                    switches := switches.map normSwitchesArg}) ∧
    (∀ (output error input mode : Option String) (s r : State),
      set_job_streams output error input mode s = .ok r →
        r = {s with output := output, error := error, input := input,
                    open_mode := mode.map (fun mo => if mo = "w" then "truncate" else "append")}) ∧
    (∀ (output error input : Option String) (s r : State),
      set_job_streams output error input set_job_streams_default_mode s = .ok r →
        r = {s with output := output, error := error, input := input,
                    open_mode := some "truncate"}) ∧
    (∀ (mail_user mail_type : Option String) (s r : State),
      set_email mail_user mail_type s = .ok r →
        r = (if mail_type = none ∨ mail_type = some "NONE" then
              {s with mail_user := none, mail_type := none}
             else {s with mail_type := mail_type, mail_user := mail_user})) ∧
    (∀ (begin : Option BeginVal) (immediate : Bool) (s r : State),
      defer_allocation begin immediate s = .ok r →
        r = {s with immediate := immediate, begin := begin}) ∧
    (∀ (export_vars : Option ExportVars) (set_vars : Option (List (String × String)))
        (export_file : Option ExportFile) (s r : State),
      set_export_env export_vars set_vars export_file s = .ok r →
        r = {s with export_vars := export_vars, set_vars := set_vars,
                    export_file := export_file}) ∧
    set_constraints none none none none none none (some (.str "10G")) none none
        false false none none none none memJob =
      .ok {blankState with tmp := some (.str "10G")} :=
  ⟨set_time_ok, set_nnodes_ok, set_specialized_ok, set_constraints_ok,
   set_job_streams_ok, set_job_streams_default_ok, set_email_ok,
   defer_allocation_ok, set_export_env_ok, by decide⟩

/-- Witness for C9: the `set_time` characterisation applied at a
concrete successful call. -/
theorem C9_group_overwrite_witness :
    ({blankState with time := some ⟨60⟩} : State) =
      {blankState with time := some ⟨60⟩, time_min := none} :=
  C9_group_overwrite.1 (some ⟨60⟩) none blankState
    {blankState with time := some ⟨60⟩} (by decide)


/-- Claim C1 counterexample: a job whose `sockets_per_node`,
`cores_per_socket` and `threads_per_core` are all present (reachable
via `set_constraints`) has three present options but its dump holds a
single merged `--extra-node-info` directive line — not one `#SBATCH`
line per present option. -/
theorem C1_counterexample :
    set_constraints none (some 2) (some 2) (some 2) none none none none none false false
        none none none none blankState = .ok eniJob ∧
    countTruthyOptions eniJob = 3 ∧
    (headerLines eniJob).length = 1 ∧
    dump "/bin/sh" eniJob =
      "#!/bin/sh\n#SBATCH --extra-node-info=2:2:2\n#SBATCH --parsable\n#SBATCH --quiet\n" ∧
    (headerLines eniJob).length + 2 ≠ countTruthyOptions eniJob + 2 :=
  ⟨by decide, by decide, by decide, by decide, by decide⟩

/-- Claim C1 (amended): `dump()` returns, in this exact order: one
interpreter line, then the directive lines of `headerEntries` in the
fixed render order — one line per present (truthy) option, except that
all-present `sockets_per_node`/`cores_per_socket`/`threads_per_core`
merge into one `--extra-node-info` line, a present `mail_type` adds a
`--mail-user` line, and `export_vars`/`set_vars` share one `--export`
line — then `#SBATCH --parsable`, then `#SBATCH --quiet`, and finally
the verbatim body; the `hello_world` document dumps to exactly the
claimed text. -/
theorem C1_dump_structure :
    (∀ (shell : String) (s : State),
      dump shell s =
        "#!" ++ shell ++ "\n" ++ concatLines (headerLines s) ++
        render_option "parsable" none ++ render_option "quiet" none ++ s.body) ∧
    (∀ shell : String,
      (SLURMJob_init "hello_world" (some (.str "debug")) none none none none none none
          none none none "srun -n ${SLURM_NTASKS} pwd\n").map (dump shell) =
        .ok ("#!" ++ shell ++
          "\n#SBATCH --job-name=hello_world\n#SBATCH --partition=debug\n#SBATCH --parsable\n#SBATCH --quiet\nsrun -n ${SLURM_NTASKS} pwd\n")) := by
  refine ⟨dump_eq_header, fun shell => ?_⟩
  have h1 : SLURMJob_init "hello_world" (some (.str "debug")) none none none none none none
      none none none "srun -n ${SLURM_NTASKS} pwd\n" = .ok helloJob := by decide
  have h2 : dump shell helloJob = "#!" ++ shell ++
      "\n#SBATCH --job-name=hello_world\n#SBATCH --partition=debug\n#SBATCH --parsable\n#SBATCH --quiet\nsrun -n ${SLURM_NTASKS} pwd\n" := by
    rw [dump_eq_header]
    simp only [String.append_assoc]
    have h3 : "\n" ++ (concatLines (headerLines helloJob) ++
        (render_option "parsable" none ++ (render_option "quiet" none ++ helloJob.body))) =
        "\n#SBATCH --job-name=hello_world\n#SBATCH --partition=debug\n#SBATCH --parsable\n#SBATCH --quiet\nsrun -n ${SLURM_NTASKS} pwd\n" := by
      decide
    rw [h3]
  rw [h1]
  show Except.map (dump shell) (Except.ok helloJob) = _
  rw [Except.map, h2]

/-- Claim C6 counterexample: the two-character string backslash-percent
contains a backslash-escaped percent sign but is rejected — the escape
test of the source looks for TWO consecutive backslashes, not for a
backslash before the percent sign. -/
theorem C6_counterexample :
    "\\%".data = ['\\', '%'] ∧ valid_filename_patterns "\\%" = false :=
  ⟨by decide,
   by simp [valid_filename_patterns, hasDoubleBackslash, subScan_percent,
     subScan_not_percent, subScan_nil, isConvChar, List.dropWhile]⟩

/-- Claim C6 (amended): the filename-pattern validator accepts exactly
the strings that tile into non-percent characters and placeholders
built from a percent sign, optional digits and one conversion character
of the class `A a J j N n s t u x` or a percent sign, with the
exception that a string containing two consecutive backslashes is
always accepted; the three concrete examples behave as claimed. -/
theorem C6_filename_patterns :
    (∀ f : String,
      valid_filename_patterns f = (hasDoubleBackslash f.data || specTiles f.data)) ∧
    valid_filename_patterns "%k" = false ∧
    valid_filename_patterns "%0ksd" = false ∧
    valid_filename_patterns "%12usd%17urf" = true := by
  refine ⟨fun f => ?_,
    by simp [valid_filename_patterns, hasDoubleBackslash, subScan_percent,
      subScan_not_percent, subScan_nil, isConvChar, List.dropWhile],
    by simp [valid_filename_patterns, hasDoubleBackslash, subScan_percent,
      subScan_not_percent, subScan_nil, isConvChar, List.dropWhile],
    by simp [valid_filename_patterns, hasDoubleBackslash, subScan_percent,
      subScan_not_percent, subScan_nil, isConvChar, List.dropWhile]⟩
  rw [valid_filename_patterns, subScan_specTiles]

/-- Claim C8 (confirmed): a non-zero exit status makes `submit` raise
an error whose message ends with the captured stderr text, with the
state carried unchanged (so `submitted` stays false and no handle is
stored); a zero exit with an all-digits response marks the document
submitted, stores the parsed integer handle and returns it. -/
theorem C8_submit :
    (∀ (s : State) (path out err : String) (rc : Int), rc ≠ 0 →
      submit path rc out err s =
        .error (path ++ " failed to submit job \x27" ++ s.name ++
                "\x27 with the following error message:\n" ++ err, s)) ∧
    (∀ (s : State) (path err : String) (ds : List Char),
      ds ≠ [] → ds.all Char.isDigit = true →
      submit path 0 (String.mk ds) err s =
        .ok ({s with submitted := true, job_id := some (digitsVal ds)}, digitsVal ds)) := by
  constructor
  · intro s path out err rc h
    rw [submit, if_pos h]
  · intro s path err ds hne hdig
    rw [submit, if_neg (by norm_num)]
    have hlast : ¬ ds.getLast? = some '\n' := by
      intro hco
      have hmem : '\n' ∈ ds := List.mem_of_getLast?_eq_some hco
      have hd := List.all_eq_true.mp hdig _ hmem
      simp at hd
    have hparse : parse_job_id (String.mk ds) = some (digitsVal ds) := by
      rw [parse_job_id]
      have hdata : (String.mk ds).data = ds := rfl
      simp only [hdata, if_neg hlast]
      simp [hne, hdig]
    rw [hparse]

/-- Witness for C8: a failing and a succeeding submission on concrete
collaborator responses. -/
theorem C8_submit_witness :
    submit "/usr/bin/sbatch" 1 "" "boom" blankState =
      .error ("/usr/bin/sbatch failed to submit job \x27\x27 with the following error message:\nboom",
              blankState) ∧
    submit "/usr/bin/sbatch" 0 (String.mk ['1', '2', '3']) "" blankState =
      .ok ({blankState with submitted := true, job_id := some (digitsVal ['1', '2', '3'])},
           digitsVal ['1', '2', '3']) :=
  ⟨C8_submit.1 blankState "/usr/bin/sbatch" "" "boom" 1 (by decide),
   C8_submit.2 blankState "/usr/bin/sbatch" "" ['1', '2', '3']
     (by decide) (by decide)⟩

/-- Claim C10 counterexample: on a job with `mail_type` present and
`mail_user` absent, `dump()` emits the line `#SBATCH --mail-user=None`
although the stored `mail_user` is falsy (absent) — refuting "a falsy
option produces no line at all". -/
theorem C10_counterexample :
    mailJob.mail_user = none ∧
    "#SBATCH --mail-user=None\n" ∈ headerLines mailJob ∧
    dump "/bin/sh" mailJob =
      "#!/bin/sh\n#SBATCH --mail-type=END\n#SBATCH --mail-user=None\n#SBATCH --parsable\n#SBATCH --quiet\n" :=
  ⟨rfl, by decide, by decide⟩

set_option maxHeartbeats 4000000 in
/-- Claim C10 (amended): a directive line is emitted for an option if
and only if its stored value is truthy, except that: `mail-user` tracks
the truthiness of `mail_type` (not of `mail_user`); the three
extra-node-info options merge into one `extra-node-info` line when all
are present (each individual line requiring at least one of them to be
absent); and `export_vars`/`set_vars` share the single `export` line.
`render_option` emits the flag-only form for every falsy rendered
value (absent or empty), not only for boolean true flags. -/
theorem C10_emission_truthiness :
    (∀ nm : String,
      render_option nm (some "") = "#SBATCH --" ++ nm ++ "\n" ∧
      render_option nm none = "#SBATCH --" ++ nm ++ "\n") ∧
    (∀ s : State,
      ("job-name" ∈ headerNames s ↔ s.name ≠ "") ∧
      ("partition" ∈ headerNames s ↔ optTruthy (fun l => !l.isEmpty) s.partitions = true) ∧
      ("time" ∈ headerNames s ↔ optTruthy (fun x => x.total != 0) s.time = true) ∧
      ("time-min" ∈ headerNames s ↔ optTruthy (fun x => x.total != 0) s.time_min = true) ∧
      ("nodes" ∈ headerNames s ↔ optTruthy (fun n => n != 0) s.minnodes = true) ∧
      ("use-min-nodes" ∈ headerNames s ↔ s.use_min_nodes = true) ∧
      ("core-spec" ∈ headerNames s ↔ optTruthy (fun n => n != 0) s.core_spec = true) ∧
      ("thread-spec" ∈ headerNames s ↔ optTruthy (fun n => n != 0) s.thread_spec = true) ∧
      ("mincpus" ∈ headerNames s ↔ optTruthy (fun n => n != 0) s.mincpus = true) ∧
      ("sockets-per-node" ∈ headerNames s ↔ (optTruthy (fun n => n != 0) s.sockets_per_node = true ∧ (s.sockets_per_node = none ∨ s.cores_per_socket = none ∨ s.threads_per_core = none))) ∧
      ("cores-per-socket" ∈ headerNames s ↔ (optTruthy (fun n => n != 0) s.cores_per_socket = true ∧ (s.sockets_per_node = none ∨ s.cores_per_socket = none ∨ s.threads_per_core = none))) ∧
      ("threads-per-core" ∈ headerNames s ↔ (optTruthy (fun n => n != 0) s.threads_per_core = true ∧ (s.sockets_per_node = none ∨ s.cores_per_socket = none ∨ s.threads_per_core = none))) ∧
      ("extra-node-info" ∈ headerNames s ↔ (s.sockets_per_node ≠ none ∧ s.cores_per_socket ≠ none ∧ s.threads_per_core ≠ none)) ∧
      ("mem" ∈ headerNames s ↔ optTruthy MemSize.truthy s.mem = true) ∧
      ("mem_per_cpu" ∈ headerNames s ↔ optTruthy MemSize.truthy s.mem_per_cpu = true) ∧
      ("tmp" ∈ headerNames s ↔ optTruthy MemSize.truthy s.tmp = true) ∧
      ("constraint" ∈ headerNames s ↔ optTruthy (fun c => c != "") s.constraints = true) ∧
      ("gres" ∈ headerNames s ↔ optTruthy (fun l : List Gres => !l.isEmpty) s.gres = true) ∧
      ("gres-flags" ∈ headerNames s ↔ s.gres_enforce_binding = true) ∧
      ("contiguous" ∈ headerNames s ↔ s.contiguous = true) ∧
      ("nodelist" ∈ headerNames s ↔ optTruthy (fun l : List String => !l.isEmpty) s.nodelist = true) ∧
      ("nodefile" ∈ headerNames s ↔ optTruthy (fun f => f != "") s.nodefile = true) ∧
      ("exclude" ∈ headerNames s ↔ optTruthy (fun l : List String => !l.isEmpty) s.exclude = true) ∧
      ("switches" ∈ headerNames s ↔ s.switches.isSome = true) ∧
      ("workdir" ∈ headerNames s ↔ optTruthy (fun w => w != "") s.workdir = true) ∧
      ("output" ∈ headerNames s ↔ optTruthy (fun o => o != "") s.output = true) ∧
      ("error" ∈ headerNames s ↔ optTruthy (fun e => e != "") s.error = true) ∧
      ("input" ∈ headerNames s ↔ optTruthy (fun i => i != "") s.input = true) ∧
      ("open-mode" ∈ headerNames s ↔ optTruthy (fun om => om != "") s.open_mode = true) ∧
      ("mail-type" ∈ headerNames s ↔ optTruthy (fun x => x != "") s.mail_type = true) ∧
      ("mail-user" ∈ headerNames s ↔ optTruthy (fun x => x != "") s.mail_type = true) ∧
      ("signal" ∈ headerNames s ↔ s.signal.isSome = true) ∧
      ("reservation" ∈ headerNames s ↔ optTruthy (fun r => r != "") s.reservation = true) ∧
      ("begin" ∈ headerNames s ↔ optTruthy BeginVal.truthy s.begin = true) ∧
      ("immediate" ∈ headerNames s ↔ s.immediate = true) ∧
      ("deadline" ∈ headerNames s ↔ s.deadline.isSome = true) ∧
      ("qos" ∈ headerNames s ↔ optTruthy (fun q => q != "") s.qos = true) ∧
      ("account" ∈ headerNames s ↔ optTruthy (fun a => a != "") s.account = true) ∧
      ("licenses" ∈ headerNames s ↔ optTruthy (fun l : List License => !l.isEmpty) s.licenses = true) ∧
      ("clusters" ∈ headerNames s ↔ optTruthy (fun l : List String => !l.isEmpty) s.clusters = true) ∧
      ("export" ∈ headerNames s ↔ (truthyEV s.export_vars || truthyL s.set_vars) = true) ∧
      ("export-file" ∈ headerNames s ↔ optTruthy ExportFile.truthy s.export_file = true)) := by
  refine ⟨fun nm => ⟨rfl, rfl⟩, fun s => ?_⟩
  refine ⟨?_, ?_, ?_, ?_, ?_, ?_, ?_, ?_, ?_, ?_, ?_, ?_, ?_, ?_, ?_, ?_, ?_, ?_, ?_, ?_, ?_, ?_, ?_, ?_, ?_, ?_, ?_, ?_, ?_, ?_, ?_, ?_, ?_, ?_, ?_, ?_, ?_, ?_, ?_, ?_, ?_, ?_⟩
  all_goals simp [headerNames_eq, mem_nameIf, mem_ite_names, List.mem_append]
  all_goals tauto

end SlurmFactory
